import Mathlib

/-!
# Verification of the webcam gesture controllers

Shallow embedding of the gesture/state-machine logic of
`webcam_controller.py` (primary thumb-index pinch channel for click/drag
and secondary thumb-middle pinch channel for right-click),
`webcam_keyboard.py` (finger-count/zone typing channel with temporal
confirmation and mode cycling) and `webcam_virtual_keyboard.py`
(dwell/pinch key selection with Caps/Shift modifier handling).

Conventions of the embedding:

* Python floats (times in seconds, distances in pixels) are embedded as `ℚ`.
* Feature extraction from raw landmarks (`process_hand_landmarks`,
  `count_fingers`, `get_hand_zone`, `key_at`, the keyboard-rectangle
  layout geometry, the cursor-smoothing average, and all drawing) is the
  upstream feature extractor: the channels consume the already-extracted
  per-frame features (pinch distances, pointing-extended flag, finger
  count, zone name, hovered key label), exactly the values those helpers
  produce.  The channel state machines themselves are translated
  line by line.
* `pyautogui` calls are modeled as emitted events.  Where a claim is
  about sink failures, the call sites additionally take an explicit
  `SinkOutcome` (`ok`, `failSafe` = `pyautogui.FailSafeException`,
  `err` = any other exception); an uncaught exception is propagated as
  `Except.error` carrying the state at the moment of the raise.
-/

namespace Webcam

/-- Last `n` elements of a list (Python `l[-n:]`). -/
def takeLast (n : ℕ) (l : List α) : List α := l.drop (l.length - n)

/-- Append to a bounded `collections.deque` of capacity `cap`
(`maxlen=cap`): the oldest element is evicted on overflow. -/
def dequePush (cap : ℕ) (l : List α) (x : α) : List α := takeLast cap (l ++ [x])

/-! ## `webcam_controller.py`: mouse controller

State fields and constants from `WebcamController.__init__`
(lines 32-59).  The unused field `is_clicking` and the cursor-smoothing
history (`cursor_history`, consumed only by the `moveTo` sink call, never
read by any gesture channel) are omitted. -/

/-- Threshold constants of `WebcamController.__init__`. -/
def clickDebounce : ℚ := 1/2
def dragHoldThreshold : ℚ := 35/100
def clickMaxDuration : ℚ := 25/100
def rightClickHoldThreshold : ℚ := 15/100
def rightClickDebounce : ℚ := 8/10
def pinchOn : ℚ := 35
def pinchOff : ℚ := 45
def rightOn : ℚ := 35
def rightOff : ℚ := 45

/-- Per-frame feature snapshot consumed by `handle_mouse_control`
(the dictionary returned by `process_hand_landmarks`; the raw cursor
position feeds only the smoothing/`moveTo` path and carries no channel
state, so it is not carried here). -/
structure Gesture where
  thumbIndexDistance : ℚ
  thumbMiddleDistance : ℚ
  indexExtended : Bool
  deriving DecidableEq, Repr

/-- Mutable channel state of `WebcamController`. -/
structure MouseState where
  mouseControlEnabled : Bool
  clickEnabled : Bool
  dragMode : Bool
  lastClickTime : ℚ
  pinchActive : Bool
  pinchStartedAt : ℚ
  rightPinchActive : Bool
  rightPinchStartedAt : ℚ
  lastRightClickTime : ℚ
  deriving DecidableEq, Repr

/-- The state set up by `WebcamController.__init__`. -/
def mouseInit : MouseState :=
  { mouseControlEnabled := true
    clickEnabled := true
    dragMode := false
    lastClickTime := 0
    pinchActive := false
    pinchStartedAt := 0
    rightPinchActive := false
    rightPinchStartedAt := 0
    lastRightClickTime := 0 }

/-- Discrete actions dispatched to the input sink by the mouse
controller (`pyautogui.moveTo/click/mouseDown/mouseUp/rightClick`). -/
inductive MEvent
  | moveCursor
  | click
  | dragStart
  | dragEnd
  | rightClick
  deriving DecidableEq, Repr

/-- `handle_mouse_control` lines 137-175: LEFT-CLICK / DRAG via
thumb+index pinch with hysteresis and timing. -/
def leftBlock (s : MouseState) (g : Gesture) (t : ℚ) : MouseState × List MEvent :=
  if s.clickEnabled then
    if s.pinchActive then
      if g.thumbIndexDistance > pinchOff ∨ g.indexExtended = false then
        -- Released
        let duration := t - s.pinchStartedAt
        if s.dragMode then
          ({ s with dragMode := false, pinchActive := false }, [MEvent.dragEnd])
        else
          if duration ≤ clickMaxDuration ∧ t - s.lastClickTime > clickDebounce then
            ({ s with lastClickTime := t, pinchActive := false }, [MEvent.click])
          else
            ({ s with pinchActive := false }, [])
      else
        -- Still pinching - check if we should start a drag
        if s.dragMode = false ∧ t - s.pinchStartedAt ≥ dragHoldThreshold then
          ({ s with dragMode := true }, [MEvent.dragStart])
        else
          (s, [])
    else
      -- Not active yet; check for pinch start
      if g.indexExtended = true ∧ g.thumbIndexDistance < pinchOn then
        ({ s with pinchActive := true, pinchStartedAt := t }, [])
      else
        (s, [])
  else
    (s, [])

/-- `handle_mouse_control` lines 177-195: RIGHT-CLICK via thumb+middle
pinch with hysteresis and hold, debounced. -/
def rightBlock (s : MouseState) (g : Gesture) (t : ℚ) : MouseState × List MEvent :=
  if s.clickEnabled ∧ t - s.lastRightClickTime > rightClickDebounce then
    if s.rightPinchActive then
      if g.thumbMiddleDistance > rightOff then
        -- Released
        let duration := t - s.rightPinchStartedAt
        if duration ≥ rightClickHoldThreshold ∧ s.dragMode = false ∧ s.pinchActive = false then
          ({ s with lastRightClickTime := t, rightPinchActive := false }, [MEvent.rightClick])
        else
          ({ s with rightPinchActive := false }, [])
      else
        (s, [])
    else
      -- Start right pinch only if not doing left pinch
      if s.pinchActive = false ∧ g.thumbMiddleDistance < rightOn then
        ({ s with rightPinchActive := true, rightPinchStartedAt := t }, [])
      else
        (s, [])
  else
    (s, [])

/-- `handle_mouse_control` (lines 121-195): cursor-move block, then the
primary pinch block, then the secondary pinch block, all against the one
`current_time` sample taken at entry. -/
def handleMouseControl (s : MouseState) (g : Gesture) (t : ℚ) : MouseState × List MEvent :=
  let moveEvs := if s.mouseControlEnabled ∧ g.indexExtended = true then [MEvent.moveCursor] else []
  let l := leftBlock s g t
  let r := rightBlock l.1 g t
  (r.1, moveEvs ++ l.2 ++ r.2)

/-- Iterated per-frame updates of `handle_mouse_control`; events of all
frames concatenated in order. -/
def mouseRun : MouseState → List (Gesture × ℚ) → MouseState × List MEvent
  | s, [] => (s, [])
  | s, f :: rest =>
    let step := handleMouseControl s f.1 f.2
    let tail := mouseRun step.1 rest
    (tail.1, step.2 ++ tail.2)

/-- Events of the primary pinch channel. -/
def isPrimary : MEvent → Bool
  | MEvent.click => true
  | MEvent.dragStart => true
  | MEvent.dragEnd => true
  | _ => false

/-- Number of Arm transitions (`pinch_active` going `False → True`)
over a run. -/
def pinchRises : MouseState → List (Gesture × ℚ) → ℕ
  | _, [] => 0
  | s, f :: rest =>
    let s' := (handleMouseControl s f.1 f.2).1
    (if s.pinchActive = false ∧ s'.pinchActive = true then 1 else 0) + pinchRises s' rest

/-- Number of Release transitions (`pinch_active` going `True → False`)
over a run. -/
def pinchFalls : MouseState → List (Gesture × ℚ) → ℕ
  | _, [] => 0
  | s, f :: rest =>
    let s' := (handleMouseControl s f.1 f.2).1
    (if s.pinchActive = true ∧ s'.pinchActive = false then 1 else 0) + pinchFalls s' rest

/-! ### Sink-failure model for `handle_mouse_control`

Each `pyautogui` call site sits in `try: ... except
pyautogui.FailSafeException: pass`, so a `FailSafeException` is caught
(skipping the rest of the `try` body) while an exception of any other
type propagates out of `handle_mouse_control` — in `run` it is caught
only by the outer `except Exception` handler, which ends the main loop.
`Except.error` carries the state at the moment of the uncaught raise
(all sink calls precede the state mutations of their branch, so the
payload is the pre-branch state). -/

/-- Outcome of one input-sink (`pyautogui`) call. -/
inductive SinkOutcome
  | ok
  | failSafe
  | err
  deriving DecidableEq, Repr

/-- One outcome per call site of `handle_mouse_control`. -/
structure SinkPlan where
  moveTo : SinkOutcome
  mouseUp : SinkOutcome
  click : SinkOutcome
  mouseDown : SinkOutcome
  rightClick : SinkOutcome
  deriving DecidableEq, Repr

/-- All sink calls succeed. -/
def okPlan : SinkPlan := ⟨.ok, .ok, .ok, .ok, .ok⟩

/-- All sink calls raise `pyautogui.FailSafeException`. -/
def failSafePlan : SinkPlan := ⟨.failSafe, .failSafe, .failSafe, .failSafe, .failSafe⟩

/-- `leftBlock` with explicit sink outcomes. -/
def leftBlockF (p : SinkPlan) (s : MouseState) (g : Gesture) (t : ℚ) :
    Except MouseState (MouseState × List MEvent) :=
  if s.clickEnabled then
    if s.pinchActive then
      if g.thumbIndexDistance > pinchOff ∨ g.indexExtended = false then
        let duration := t - s.pinchStartedAt
        if s.dragMode then
          match p.mouseUp with
          | .err => .error s
          | .ok => .ok ({ s with dragMode := false, pinchActive := false }, [MEvent.dragEnd])
          | .failSafe => .ok ({ s with dragMode := false, pinchActive := false }, [])
        else
          if duration ≤ clickMaxDuration ∧ t - s.lastClickTime > clickDebounce then
            match p.click with
            | .err => .error s
            | .ok => .ok ({ s with lastClickTime := t, pinchActive := false }, [MEvent.click])
            | .failSafe => .ok ({ s with pinchActive := false }, [])
          else
            .ok ({ s with pinchActive := false }, [])
      else
        if s.dragMode = false ∧ t - s.pinchStartedAt ≥ dragHoldThreshold then
          match p.mouseDown with
          | .err => .error s
          | .ok => .ok ({ s with dragMode := true }, [MEvent.dragStart])
          | .failSafe => .ok ({ s with dragMode := true }, [])
        else
          .ok (s, [])
    else
      if g.indexExtended = true ∧ g.thumbIndexDistance < pinchOn then
        .ok ({ s with pinchActive := true, pinchStartedAt := t }, [])
      else
        .ok (s, [])
  else
    .ok (s, [])

/-- `rightBlock` with explicit sink outcomes. -/
def rightBlockF (p : SinkPlan) (s : MouseState) (g : Gesture) (t : ℚ) :
    Except MouseState (MouseState × List MEvent) :=
  if s.clickEnabled ∧ t - s.lastRightClickTime > rightClickDebounce then
    if s.rightPinchActive then
      if g.thumbMiddleDistance > rightOff then
        let duration := t - s.rightPinchStartedAt
        if duration ≥ rightClickHoldThreshold ∧ s.dragMode = false ∧ s.pinchActive = false then
          match p.rightClick with
          | .err => .error s
          | .ok => .ok ({ s with lastRightClickTime := t, rightPinchActive := false },
              [MEvent.rightClick])
          | .failSafe => .ok ({ s with rightPinchActive := false }, [])
        else
          .ok ({ s with rightPinchActive := false }, [])
      else
        .ok (s, [])
    else
      if s.pinchActive = false ∧ g.thumbMiddleDistance < rightOn then
        .ok ({ s with rightPinchActive := true, rightPinchStartedAt := t }, [])
      else
        .ok (s, [])
  else
    .ok (s, [])

/-- `handle_mouse_control` with explicit sink outcomes: cursor-move
call, then the primary block, then the secondary block; the first
uncaught exception propagates. -/
def handleMouseControlF (p : SinkPlan) (s : MouseState) (g : Gesture) (t : ℚ) :
    Except MouseState (MouseState × List MEvent) :=
  let moveRes : Except MouseState (List MEvent) :=
    if s.mouseControlEnabled ∧ g.indexExtended = true then
      match p.moveTo with
      | .err => .error s
      | .ok => .ok [MEvent.moveCursor]
      | .failSafe => .ok []
    else .ok []
  match moveRes with
  | .error e => .error e
  | .ok moveEvs =>
    match leftBlockF p s g t with
    | .error e => .error e
    | .ok (s1, e1) =>
      match rightBlockF p s1 g t with
      | .error e => .error e
      | .ok (s2, e2) => .ok (s2, moveEvs ++ e1 ++ e2)

/-- The channel state proper of the mouse controller: everything except
the two fired-event timestamps (`last_click_time`,
`last_right_click_time`). -/
def chanCore (s : MouseState) : Bool × Bool × Bool × Bool × ℚ × Bool × ℚ :=
  (s.mouseControlEnabled, s.clickEnabled, s.dragMode,
   s.pinchActive, s.pinchStartedAt, s.rightPinchActive, s.rightPinchStartedAt)

/-! ## `webcam_keyboard.py`: finger-count/zone typing channel

State fields and constants from `WebcamKeyboard.__init__` (lines 29-53);
the per-frame loop body of `run` (lines 334-401).  `count_fingers` and
`get_hand_zone` are landmark geometry (feature extraction) and enter the
embedding as the per-hand finger count and zone name of a frame. -/

/-- The apostrophe character (avoids a quote escape in a literal). -/
def aposChar : Char := Char.ofNat 39

/-- The double-quote character. -/
def quoteChar : Char := Char.ofNat 34

/-- Python `s[:-1]` guarded by `if s:` (`execute_action`, `type_key`). -/
def strDropLast (s : String) : String := if s = "" then s else s.dropRight 1

/-- Python `s[-n:]`. -/
def strTakeLast (n : ℕ) (s : String) : String := String.mk (takeLast n s.toList)

/-- `self.gesture_debounce = 1.0` (seconds between gestures). -/
def gestureDebounce : ℚ := 1

/-- `self.required_confirmation = 8` (frames). -/
def requiredConfirmation : ℕ := 8

/-- `self.modes = ["LETTERS", "NUMBERS", "SYMBOLS", "ACTIONS"]`. -/
def modes : List String := ["LETTERS", "NUMBERS", "SYMBOLS", "ACTIONS"]

/-- Zone names in the order fixed by `get_zone_index`. -/
def zoneNames : List String :=
  ["top_left", "top_center", "top_right",
   "mid_left", "mid_center", "mid_right",
   "bot_left", "bot_center", "bot_right"]

/-- `get_zone_index` (lines 141-149): `zone_names.index(zone_name)`,
with the `ValueError` of a missing name caught and turned into `0`. -/
def getZoneIndex (zoneName : String) : ℕ :=
  let i := zoneNames.indexOf zoneName
  if i < zoneNames.length then i else 0

/-- `character_maps["LETTERS"]` (lines 86-92). -/
def lettersMap : ℕ → Option (List String)
  | 1 => some ["a", "b", "c", "d", "e", "f", "g", "h", "i"]
  | 2 => some ["j", "k", "l", "m", "n", "o", "p", "q", "r"]
  | 3 => some ["s", "t", "u", "v", "w", "x", "y", "z", "."]
  | 4 => some ["A", "B", "C", "D", "E", "F", "G", "H", "I"]
  | 5 => some ["J", "K", "L", "M", "N", "O", "P", "Q", "R"]
  | _ => none

/-- `character_maps["NUMBERS"]` (lines 93-99). -/
def numbersMap : ℕ → Option (List String)
  | 1 => some ["1", "2", "3", "4", "5", "6", "7", "8", "9"]
  | 2 => some ["0", "+", "-", "*", "/", "=", "(", ")", "%"]
  | 3 => some ["!", "@", "#", "$", "&", "?", ",", ";", ":"]
  | 4 => some ["<", ">", "[", "]", "\x7b", "\x7d", "|", "\\", String.singleton quoteChar]
  | 5 => some ["~", "`", "^", "_", String.singleton aposChar, ".", ",", "!", "?"]
  | _ => none

/-- `character_maps["ACTIONS"]` (lines 100-106). -/
def actionsMap : ℕ → Option (List String)
  | 1 => some ["ENTER", "TAB", "ESC", "DELETE", "HOME", "END", "UP", "DOWN", "LEFT"]
  | 2 => some ["RIGHT", "PGUP", "PGDN", "F1", "F2", "F3", "F4", "F5", "F6"]
  | 3 => some ["F7", "F8", "F9", "F10", "F11", "F12", "CTRL", "ALT", "SHIFT"]
  | 4 => some ["COPY", "PASTE", "CUT", "UNDO", "REDO", "SAVE", "FIND", "REPLACE", "SELECT"]
  | 5 => some ["CAPS", "NUM", "SCROLL", "PAUSE", "PRINT", "INSERT", "MENU", "WIN", "CMD"]
  | _ => none

/-- `self.character_maps` of `setup_character_mapping` (lines 83-107):
a dictionary with keys `"LETTERS"`, `"NUMBERS"`, `"ACTIONS"` — and,
notably, no `"SYMBOLS"` entry, although `"SYMBOLS"` is in `self.modes`. -/
def characterMaps (mode : String) : Option (ℕ → Option (List String)) :=
  if mode = "LETTERS" then some lettersMap
  else if mode = "NUMBERS" then some numbersMap
  else if mode = "ACTIONS" then some actionsMap
  else none

/-- Mutable state of `WebcamKeyboard` touched by the typing channel. -/
structure KbState where
  typingEnabled : Bool
  currentText : String
  lastGestureTime : ℚ
  fingerCountHistory : List ℕ
  lastFingerCount : ℕ
  gestureConfirmed : Bool
  confirmationFrames : ℕ
  currentZone : Option String
  zoneHistory : List (Option String)
  currentMode : String
  modeIndex : ℕ
  deriving DecidableEq, Repr

/-- The state set up by `WebcamKeyboard.__init__`. -/
def kbInit : KbState :=
  { typingEnabled := true
    currentText := ""
    lastGestureTime := 0
    fingerCountHistory := []
    lastFingerCount := 0
    gestureConfirmed := false
    confirmationFrames := 0
    currentZone := none
    zoneHistory := []
    currentMode := "LETTERS"
    modeIndex := 0 }

/-- The time-independent part of `process_gesture` (lines 158-175):
zone check, the two special gestures, then the mode-table lookup.
`self.character_maps[self.current_mode]` is a raising dictionary access:
a mode absent from the table (such as `"SYMBOLS"`) raises `KeyError`,
embedded as `Except.error`. -/
def gestureAction (mode : String) (fingerCount : ℕ) (zone : Option String) :
    Except Unit (Option String) :=
  match zone with
  | none => .ok none
  | some z =>
    if fingerCount = 0 then .ok (some " ")
    else if fingerCount = 5 ∧ z ∈ ["top_left", "top_center", "top_right"] then
      .ok (some "BACKSPACE")
    else
      match characterMaps mode with
      | none => .error ()
      | some table =>
        match table fingerCount with
        | none => .ok none
        | some charList =>
          let zoneIndex := getZoneIndex z
          if h : zoneIndex < charList.length then .ok (some (charList.get ⟨zoneIndex, h⟩))
          else .ok none

/-- `process_gesture` (lines 151-175): the gesture-debounce gate, then
`gestureAction`. -/
def processGesture (s : KbState) (t : ℚ) (fingerCount : ℕ) (zone : Option String) :
    Except Unit (Option String) :=
  if t - s.lastGestureTime < gestureDebounce then .ok none
  else gestureAction s.currentMode fingerCount zone

/-- `execute_action` (lines 177-217): effect on `self.current_text`,
with one input-sink call outcome for the frame.  The whole body is
wrapped in `try: ... except Exception:`, so a raising sink call leaves
the text as it was at the raise (every text mutation follows its sink
call) and the exception never propagates. -/
def executeAction (o : SinkOutcome) (action text : String) : String :=
  let sinkOk := o = SinkOutcome.ok
  if action = " " then
    if sinkOk then text ++ " " else text
  else if action = "BACKSPACE" then
    if sinkOk then strDropLast text else text
  else if action = "ENTER" then
    if sinkOk then text ++ "\\n" else text
  else if action = "TAB" then
    if sinkOk then text ++ "\\t" else text
  else if action ∈ ["UP", "DOWN", "LEFT", "RIGHT"] then
    text
  else if action ∈ ["CTRL", "ALT", "SHIFT"] then
    text
  else if action ∈ ["COPY", "PASTE", "CUT", "UNDO", "SAVE"] then
    text
  else if action.length = 1 then
    if sinkOk then text ++ action else text
  else
    text

/-- `change_mode` (lines 219-223). -/
def changeMode (s : KbState) : KbState :=
  let mi := (s.modeIndex + 1) % modes.length
  { s with modeIndex := mi, currentMode := modes.getD mi "" }

/-- One detected hand of a frame, already fed through the feature
extractor (`count_fingers`, `get_hand_zone`). -/
structure KbHand where
  fingerCount : ℕ
  zone : Option String
  deriving DecidableEq, Repr

/-- One frame of the keyboard loop: the detected hands and the frame's
clock sample. -/
structure KbFrame where
  hands : List KbHand
  time : ℚ
  deriving DecidableEq, Repr

/-- Events produced by the keyboard loop: an executed typing action, or
a mode cycle. -/
inductive KbEvent
  | action (a : String)
  | modeCycle
  deriving DecidableEq, Repr

/-- The hands block of `run` (lines 337-396): history updates, the
3-frame-window stability check, the confirmation counter and the
gesture emission; the no-hands `else` resets the channel.  A `KeyError`
from `process_gesture` propagates (in `run` it reaches the outer
`except Exception`, ending the loop). -/
def kbHandsBlock (s0 : KbState) (f : KbFrame) (bothOpen : Bool) :
    Except Unit (KbState × List KbEvent) :=
  match f.hands.head? with
  | none =>
    .ok ({ s0 with currentZone := none, gestureConfirmed := false, confirmationFrames := 0 }, [])
  | some primary =>
    let fingerCount := primary.fingerCount
    let zone := primary.zone
    let s := { s0 with
      fingerCountHistory := dequePush 5 s0.fingerCountHistory fingerCount,
      zoneHistory := dequePush 5 s0.zoneHistory zone,
      currentZone := zone }
    if s.fingerCountHistory.length ≥ 3 then
      let recentCounts := takeLast 3 s.fingerCountHistory
      let recentZones := takeLast 3 s.zoneHistory
      if recentCounts.dedup.length = 1 ∧ recentZones.dedup.length = 1 then
        if s.gestureConfirmed = false then
          let s := { s with confirmationFrames := s.confirmationFrames + 1 }
          if s.confirmationFrames ≥ requiredConfirmation then
            let s := { s with gestureConfirmed := true, lastFingerCount := fingerCount }
            if s.typingEnabled = true ∧ bothOpen = false then
              match processGesture s f.time fingerCount zone with
              | .error e => .error e
              | .ok none => .ok (s, [])
              | .ok (some a) =>
                .ok ({ s with
                  currentText := executeAction .ok a s.currentText,
                  lastGestureTime := f.time }, [KbEvent.action a])
            else .ok (s, [])
          else .ok (s, [])
        else .ok (s, [])
      else
        .ok ({ s with
          gestureConfirmed := false,
          confirmationFrames := 0,
          lastFingerCount := fingerCount }, [])
    else .ok (s, [])

/-- One iteration of the `run` loop (lines 334-401): the hands block,
then the mode-change check (`both_hands_open` sustained past the 2 s
cooldown fires `change_mode` and stamps `last_gesture_time`). -/
def kbStep (s0 : KbState) (f : KbFrame) : Except Unit (KbState × List KbEvent) :=
  let bothOpen : Bool :=
    decide (f.hands.length = 2) && f.hands.all (fun h => h.fingerCount == 5)
  match kbHandsBlock s0 f bothOpen with
  | .error e => .error e
  | .ok (s1, evs1) =>
    if bothOpen = true ∧ f.time - s1.lastGestureTime > 2 then
      .ok ({ changeMode s1 with lastGestureTime := f.time }, evs1 ++ [KbEvent.modeCycle])
    else
      .ok (s1, evs1)

/-- Iterated frames of the keyboard loop, keeping the events of each
frame separate. -/
def kbRun : KbState → List KbFrame → Except Unit (KbState × List (List KbEvent))
  | s, [] => .ok (s, [])
  | s, f :: rest =>
    match kbStep s f with
    | .error e => .error e
    | .ok (s', evs) =>
      match kbRun s' rest with
      | .error e => .error e
      | .ok (s'', evss) => .ok (s'', evs :: evss)

/-! ## `webcam_virtual_keyboard.py`: dwell/pinch key-selection channel

State and constants from `VirtualKeyboard.__init__` (lines 44-64);
`shifted_char` (72-77), `type_key` (79-124) and the selection part of
the `run` loop body (219-256).  The key-rectangle layout geometry
(`calc_keyboard_rects`, `key_at`) is feature extraction: the hovered
key label enters the embedding as a per-frame input. -/

/-- `self.dwell_threshold = 0.7` (seconds to select on hover). -/
def dwellThreshold : ℚ := 7/10

/-- `self.select_debounce = 0.35`. -/
def selectDebounce : ℚ := 35/100

/-- `self.pinch_on = 35` (px). -/
def vkPinchOn : ℚ := 35

/-- `self.pinch_off = 45` (px). -/
def vkPinchOff : ℚ := 45

/-- `self.preview_max = 60`. -/
def previewMax : ℕ := 60

/-- Mutable state of `VirtualKeyboard` touched by the selection channel. -/
structure VkState where
  selectionMethod : String
  hoverKey : Option String
  hoverStartedAt : ℚ
  lastSelectTime : ℚ
  pinchActive : Bool
  capsLock : Bool
  shiftLatched : Bool
  previewText : String
  deriving DecidableEq, Repr

/-- The state set up by `VirtualKeyboard.__init__`. -/
def vkInit : VkState :=
  { selectionMethod := "dwell"
    hoverKey := none
    hoverStartedAt := 0
    lastSelectTime := 0
    pinchActive := false
    capsLock := false
    shiftLatched := false
    previewText := "" }

/-- Events of the selection channel: a key selection accepted by
`type_key`'s debounce gate, plus the concrete sink calls it makes. -/
inductive VkEvent
  | selectKey (label : String)
  | pressed (key : String)
  | typed (out : String)
  deriving DecidableEq, Repr

/-- `shifted_char` (lines 72-77): the fixed shift-substitution table,
falling back to `ch.upper()` for alphabetic and `ch` otherwise. -/
def shiftedChar (ch : Char) : Char :=
  if ch = '`' then '~'
  else if ch = '1' then '!'
  else if ch = '2' then '@'
  else if ch = '3' then '#'
  else if ch = '4' then '$'
  else if ch = '5' then '%'
  else if ch = '6' then '^'
  else if ch = '7' then '&'
  else if ch = '8' then '*'
  else if ch = '9' then '('
  else if ch = '0' then ')'
  else if ch = '-' then '_'
  else if ch = '=' then '+'
  else if ch = '[' then Char.ofNat 123
  else if ch = ']' then Char.ofNat 125
  else if ch = '\\' then '|'
  else if ch = ';' then ':'
  else if ch = aposChar then quoteChar
  else if ch = ',' then '<'
  else if ch = '.' then '>'
  else if ch = '/' then '?'
  else if ch.isAlpha then ch.toUpper
  else ch

/-- The `finally:` block of `type_key` (lines 121-124): Shift applies
once — the latch is consumed unless the selected label is `Shift` or
`Caps`. -/
def shiftFinally (label : String) (st : VkState) : VkState :=
  if st.shiftLatched = true ∧ label ∉ ["Shift", "Caps"] then
    { st with shiftLatched := false }
  else st

/-- The `try:` body of `type_key` (lines 85-120): the label dispatch
with its sink calls and preview updates. -/
def typeKeyBody (s : VkState) (label : String) : VkState × List VkEvent :=
  if label = "Backspace" then
    ({ s with previewText := strDropLast s.previewText }, [VkEvent.pressed "backspace"])
  else if label = "Tab" then
    ({ s with previewText := s.previewText ++ "\t" }, [VkEvent.pressed "tab"])
  else if label = "Enter" then
    ({ s with previewText := s.previewText ++ "\n" }, [VkEvent.pressed "enter"])
  else if label = "Space" then
    ({ s with previewText := s.previewText ++ " " }, [VkEvent.pressed "space"])
  else if label = "Caps" then
    ({ s with capsLock := !s.capsLock }, [])
  else if label = "Shift" then
    ({ s with shiftLatched := true }, [])
  else if label ∈ ["Ctrl", "Alt", "Win", "Menu"] then
    (s, [])
  else
    match label.toList with
    | [c] =>
      let out : Char :=
        if c.isAlpha then
          if xor s.capsLock s.shiftLatched then c.toUpper else c.toLower
        else
          if s.shiftLatched then shiftedChar c else c
      let outStr := String.singleton out
      ({ s with previewText := strTakeLast previewMax (s.previewText ++ outStr) },
       [VkEvent.typed outStr])
    | _ => (s, [])

/-- `type_key` (lines 79-124): the `select_debounce` gate, the `try:`
body (`typeKeyBody`, on the state with `last_select_time` stamped), and
the `finally:` one-shot consumption of the Shift latch
(`shiftFinally`).  A selection rejected by the debounce gate returns
before the `try`, so it neither emits nor consumes the latch. -/
def typeKey (s0 : VkState) (label : String) (now : ℚ) : VkState × List VkEvent :=
  if now - s0.lastSelectTime < selectDebounce then (s0, [])
  else
    let body := typeKeyBody { s0 with lastSelectTime := now } label
    (shiftFinally label body.1, VkEvent.selectKey label :: body.2)

/-- One detected hand of a virtual-keyboard frame, after feature
extraction (`fingertip_and_pinch` and the `key_at` hover test). -/
structure VkHand where
  hover : Option String
  pinchDist : ℚ
  indexExtended : Bool
  deriving DecidableEq, Repr

/-- One frame of the virtual-keyboard loop. -/
structure VkFrame where
  hand : Option VkHand
  time : ℚ
  deriving DecidableEq, Repr

/-- The selection part of one `run` iteration (lines 222-256): dwell
tracking and firing, then pinch arm/release selection.  With no hand
detected, nothing of the channel state is touched. -/
def vkStep (s0 : VkState) (f : VkFrame) : VkState × List VkEvent :=
  match f.hand with
  | none => (s0, [])
  | some hd =>
    let hoverLabel := hd.hover
    let now := f.time
    let dwellPart : VkState × List VkEvent :=
      match hoverLabel with
      | some hl =>
        if s0.selectionMethod = "dwell" then
          let s :=
            if some hl ≠ s0.hoverKey then
              { s0 with hoverKey := some hl, hoverStartedAt := now }
            else s0
          if now - s.hoverStartedAt ≥ dwellThreshold then
            let fired := typeKey s hl now
            ({ fired.1 with hoverStartedAt := now }, fired.2)
          else (s, [])
        else ({ s0 with hoverKey := hoverLabel, hoverStartedAt := now }, [])
      | none => ({ s0 with hoverKey := hoverLabel, hoverStartedAt := now }, [])
    let s1 := dwellPart.1
    let pinchPart : VkState × List VkEvent :=
      match hoverLabel with
      | some hl =>
        if s1.selectionMethod = "pinch" ∧ hd.indexExtended = true then
          if s1.pinchActive then
            if hd.pinchDist > vkPinchOff then
              let fired := typeKey s1 hl now
              ({ fired.1 with pinchActive := false }, fired.2)
            else (s1, [])
          else
            if hd.pinchDist < vkPinchOn then ({ s1 with pinchActive := true }, [])
            else (s1, [])
        else (s1, [])
      | none => (s1, [])
    (pinchPart.1, dwellPart.2 ++ pinchPart.2)

/-- Iterated frames of the virtual-keyboard loop, keeping the events of
each frame separate. -/
def vkRun : VkState → List VkFrame → VkState × List (List VkEvent)
  | s, [] => (s, [])
  | s, f :: rest =>
    let step := vkStep s f
    let tail := vkRun step.1 rest
    (tail.1, step.2 :: tail.2)

/-- Count of accepted key selections in a run's events. -/
def isSelect : VkEvent → Bool
  | VkEvent.selectKey _ => true
  | _ => false

/-- Number of `selectKey` events over per-frame event lists. -/
def countSelects (evss : List (List VkEvent)) : ℕ :=
  (evss.map (fun evs => (evs.filter isSelect).length)).sum

/-- The payload of a propagated exception, `none` on success. -/
def exceptError : Except ε α → Option ε
  | .error e => some e
  | .ok _ => none

/-- A synthetic input for the dwell channel: `n` frames at uniform
spacing `dt` (times `0, dt, 2·dt, …`), all hovering key `K` — a
continuous hover of duration `(n-1)·dt` sampled every `dt`. -/
def dwellFrames (K : String) (pd : ℚ) (ie : Bool) (dt : ℚ) (n : ℕ) : List VkFrame :=
  (List.range n).map (fun (i : ℕ) => ⟨some ⟨some K, pd, ie⟩, (i : ℚ) * dt⟩)

/-! ## Supporting lemmas -/

/-- The primary block never touches the secondary channel's fields. -/
theorem leftBlock_preserves_right (s : MouseState) (g : Gesture) (t : ℚ) :
    (leftBlock s g t).1.rightPinchActive = s.rightPinchActive
    ∧ (leftBlock s g t).1.rightPinchStartedAt = s.rightPinchStartedAt
    ∧ (leftBlock s g t).1.lastRightClickTime = s.lastRightClickTime := by
  unfold leftBlock
  dsimp only
  split_ifs <;> exact ⟨rfl, rfl, rfl⟩

/-- The primary block emits only primary events, never a RightClick. -/
theorem leftBlock_no_rightClick (s : MouseState) (g : Gesture) (t : ℚ) :
    MEvent.rightClick ∉ (leftBlock s g t).2 := by
  unfold leftBlock
  dsimp only
  split_ifs <;> simp

/-- The secondary block never touches the primary channel's fields. -/
theorem rightBlock_preserves_left (s : MouseState) (g : Gesture) (t : ℚ) :
    (rightBlock s g t).1.pinchActive = s.pinchActive
    ∧ (rightBlock s g t).1.pinchStartedAt = s.pinchStartedAt
    ∧ (rightBlock s g t).1.dragMode = s.dragMode
    ∧ (rightBlock s g t).1.lastClickTime = s.lastClickTime
    ∧ (rightBlock s g t).1.clickEnabled = s.clickEnabled := by
  unfold rightBlock
  dsimp only
  split_ifs <;> exact ⟨rfl, rfl, rfl, rfl, rfl⟩

/-- A RightClick emission requires, at the moment of the check, that
neither drag mode nor the primary pinch is active. -/
theorem rightBlock_fire (s : MouseState) (g : Gesture) (t : ℚ)
    (h : MEvent.rightClick ∈ (rightBlock s g t).2) :
    s.dragMode = false ∧ s.pinchActive = false := by
  unfold rightBlock at h
  dsimp only at h
  split_ifs at h with h1 h2 h3 h4 h5 <;> simp_all

/-- A secondary Arm transition (the flag newly set by this frame's
block) requires the primary pinch to be inactive. -/
theorem rightBlock_new_arm (s : MouseState) (g : Gesture) (t : ℚ)
    (h0 : s.rightPinchActive = false)
    (h1 : (rightBlock s g t).1.rightPinchActive = true) :
    (rightBlock s g t).1.pinchActive = false := by
  unfold rightBlock at h1 ⊢
  dsimp only at h1 ⊢
  split_ifs at h1 ⊢ with ha hb hc <;> simp_all

/-- The primary block never changes the click-control flag. -/
theorem leftBlock_preserves_enabled (s : MouseState) (g : Gesture) (t : ℚ) :
    (leftBlock s g t).1.clickEnabled = s.clickEnabled := by
  unfold leftBlock
  dsimp only
  split_ifs <;> rfl

/-- The secondary block contributes no primary-channel events. -/
theorem rightBlock_no_primary (s : MouseState) (g : Gesture) (t : ℚ) :
    (rightBlock s g t).2.filter isPrimary = [] := by
  unfold rightBlock
  dsimp only
  split_ifs <;> rfl

/-- All primary-channel fields of a full `handle_mouse_control` step,
and its primary events, come from the primary block alone. -/
theorem handle_pinch_fields (s : MouseState) (g : Gesture) (t : ℚ) :
    (handleMouseControl s g t).1.pinchActive = (leftBlock s g t).1.pinchActive
    ∧ (handleMouseControl s g t).1.pinchStartedAt = (leftBlock s g t).1.pinchStartedAt
    ∧ (handleMouseControl s g t).1.dragMode = (leftBlock s g t).1.dragMode
    ∧ (handleMouseControl s g t).1.clickEnabled = (leftBlock s g t).1.clickEnabled
    ∧ (handleMouseControl s g t).1.lastClickTime = (leftBlock s g t).1.lastClickTime
    ∧ (handleMouseControl s g t).2.filter isPrimary
        = (leftBlock s g t).2.filter isPrimary := by
  unfold handleMouseControl
  dsimp only
  have hp := rightBlock_preserves_left (leftBlock s g t).1 g t
  refine ⟨hp.1, hp.2.1, hp.2.2.1, hp.2.2.2.2, hp.2.2.2.1, ?_⟩
  rw [List.filter_append, List.filter_append, rightBlock_no_primary]
  have hm : List.filter isPrimary
      (if s.mouseControlEnabled = true ∧ g.indexExtended = true
        then [MEvent.moveCursor] else []) = [] := by
    split_ifs <;> rfl
  rw [hm]
  simp

/-- A full step never changes the click-control flag. -/
theorem handle_preserves_enabled (s : MouseState) (g : Gesture) (t : ℚ) :
    (handleMouseControl s g t).1.clickEnabled = s.clickEnabled :=
  ((handle_pinch_fields s g t).2.2.2.1).trans (leftBlock_preserves_enabled s g t)

/-- The primary block with an idle channel and a distance at or above
`pinch_on` changes nothing. -/
theorem leftBlock_no_arm (s : MouseState) (g : Gesture) (t : ℚ)
    (h0 : s.pinchActive = false) (hd : ¬ g.thumbIndexDistance < pinchOn) :
    (leftBlock s g t).1 = s := by
  unfold leftBlock
  dsimp only
  split_ifs with h1 h2 h3 h4 h5 <;> first
    | rfl
    | simp_all

/-- The primary block arming transition (`Idle → Armed`). -/
theorem leftBlock_arm (s : MouseState) (g : Gesture) (t : ℚ)
    (h0 : s.pinchActive = false) (hce : s.clickEnabled = true)
    (he : g.indexExtended = true) (hd : g.thumbIndexDistance < pinchOn) :
    leftBlock s g t = ({ s with pinchActive := true, pinchStartedAt := t }, []) := by
  unfold leftBlock
  rw [if_pos hce, if_neg (by simp [h0]), if_pos ⟨he, hd⟩]

/-- The primary block while armed and still pinching: either the drag
escalation fires, or nothing happens. -/
theorem leftBlock_hold (s : MouseState) (g : Gesture) (t : ℚ)
    (h0 : s.pinchActive = true) (hce : s.clickEnabled = true)
    (hrel : ¬ (g.thumbIndexDistance > pinchOff ∨ g.indexExtended = false)) :
    leftBlock s g t
      = if s.dragMode = false ∧ t - s.pinchStartedAt ≥ dragHoldThreshold
        then ({ s with dragMode := true }, [MEvent.dragStart])
        else (s, []) := by
  unfold leftBlock
  rw [if_pos hce, if_pos h0, if_neg hrel]

/-- The primary block at a release frame. -/
theorem leftBlock_release (s : MouseState) (g : Gesture) (t : ℚ)
    (h0 : s.pinchActive = true) (hce : s.clickEnabled = true)
    (hrel : g.thumbIndexDistance > pinchOff ∨ g.indexExtended = false) :
    leftBlock s g t
      = if s.dragMode = true then
          ({ s with dragMode := false, pinchActive := false }, [MEvent.dragEnd])
        else if t - s.pinchStartedAt ≤ clickMaxDuration ∧ t - s.lastClickTime > clickDebounce then
          ({ s with lastClickTime := t, pinchActive := false }, [MEvent.click])
        else
          ({ s with pinchActive := false }, []) := by
  unfold leftBlock
  rw [if_pos hce, if_pos h0, if_pos hrel]

/-- Run state over an appended trace. -/
theorem mouseRun_state_append (l1 l2 : List (Gesture × ℚ)) : ∀ (s : MouseState),
    (mouseRun s (l1 ++ l2)).1 = (mouseRun (mouseRun s l1).1 l2).1 := by
  induction l1 with
  | nil => intro s; rfl
  | cons f rest ih =>
    intro s
    simp only [List.cons_append, mouseRun]
    exact ih _

/-- Run events over an appended trace. -/
theorem mouseRun_events_append (l1 l2 : List (Gesture × ℚ)) : ∀ (s : MouseState),
    (mouseRun s (l1 ++ l2)).2
      = (mouseRun s l1).2 ++ (mouseRun (mouseRun s l1).1 l2).2 := by
  induction l1 with
  | nil => intro s; rfl
  | cons f rest ih =>
    intro s
    simp only [List.cons_append, mouseRun, List.append_eq]
    rw [ih]
    simp

/-- Arm-transition count over an appended trace. -/
theorem pinchRises_append (l1 l2 : List (Gesture × ℚ)) : ∀ (s : MouseState),
    pinchRises s (l1 ++ l2) = pinchRises s l1 + pinchRises (mouseRun s l1).1 l2 := by
  induction l1 with
  | nil => intro s; simp [pinchRises, mouseRun]
  | cons f rest ih =>
    intro s
    simp only [List.cons_append, pinchRises, mouseRun, List.append_eq]
    rw [ih]
    ring

/-- Release-transition count over an appended trace. -/
theorem pinchFalls_append (l1 l2 : List (Gesture × ℚ)) : ∀ (s : MouseState),
    pinchFalls s (l1 ++ l2) = pinchFalls s l1 + pinchFalls (mouseRun s l1).1 l2 := by
  induction l1 with
  | nil => intro s; simp [pinchFalls, mouseRun]
  | cons f rest ih =>
    intro s
    simp only [List.cons_append, pinchFalls, mouseRun, List.append_eq]
    rw [ih]
    ring

/-- Over any run of frames whose thumb-index distance stays at or above
`pinch_on`, an idle primary channel stays idle with no transitions. -/
theorem run_idle (l : List (Gesture × ℚ)) : ∀ (s : MouseState),
    s.pinchActive = false →
    (∀ f ∈ l, ¬ (f : Gesture × ℚ).1.thumbIndexDistance < pinchOn) →
    (mouseRun s l).1.pinchActive = false
    ∧ (mouseRun s l).1.clickEnabled = s.clickEnabled
    ∧ pinchRises s l = 0 ∧ pinchFalls s l = 0 := by
  induction l with
  | nil => exact fun s h0 _ => ⟨h0, rfl, rfl, rfl⟩
  | cons f rest ih =>
    intro s h0 hl
    have hstep : (handleMouseControl s f.1 f.2).1.pinchActive = false := by
      rw [(handle_pinch_fields s f.1 f.2).1,
        leftBlock_no_arm s f.1 f.2 h0 (hl f (by simp))]
      exact h0
    obtain ⟨ih1, ih2, ih3, ih4⟩ :=
      ih (handleMouseControl s f.1 f.2).1 hstep (fun f2 hf2 => hl f2 (by simp [hf2]))
    refine ⟨?_, ?_, ?_, ?_⟩
    · simpa only [mouseRun] using ih1
    · simp only [mouseRun]
      rw [ih2, handle_preserves_enabled]
    · simp only [pinchRises]
      rw [if_neg (by simp [hstep]), ih3]
    · simp only [pinchFalls]
      rw [if_neg (by simp [h0]), ih4]

/-- Over any run of still-pinching frames (distance not above
`pinch_off`, pointing extended), an armed primary channel stays armed
with the same arm timestamp and no transitions; drag mode becomes set
exactly when some frame of the run (or the past) crossed the hold
threshold, and the primary events of the run are exactly one DragStart
at the first crossing frame (none if drag was already set or no frame
crosses). -/
theorem run_hold (l : List (Gesture × ℚ)) : ∀ (s : MouseState),
    s.pinchActive = true → s.clickEnabled = true →
    (∀ f ∈ l, ¬ ((f : Gesture × ℚ).1.thumbIndexDistance > pinchOff
      ∨ f.1.indexExtended = false)) →
    (mouseRun s l).1.pinchActive = true
    ∧ (mouseRun s l).1.pinchStartedAt = s.pinchStartedAt
    ∧ (mouseRun s l).1.clickEnabled = true
    ∧ pinchRises s l = 0 ∧ pinchFalls s l = 0
    ∧ ((mouseRun s l).1.dragMode
        = (s.dragMode || decide (∃ f ∈ l, dragHoldThreshold ≤ f.2 - s.pinchStartedAt)))
    ∧ ((mouseRun s l).2.filter isPrimary
        = if s.dragMode = false ∧ (∃ f ∈ l, dragHoldThreshold ≤ f.2 - s.pinchStartedAt)
          then [MEvent.dragStart] else []) := by
  induction l with
  | nil =>
    intro s h0 hce _
    refine ⟨h0, rfl, hce, rfl, rfl, by simp [mouseRun], by simp [mouseRun]⟩
  | cons f rest ih =>
    intro s h0 hce hl
    have hstep := leftBlock_hold s f.1 f.2 h0 hce (hl f (by simp))
    have hpf := handle_pinch_fields s f.1 f.2
    by_cases hesc : s.dragMode = false ∧ f.2 - s.pinchStartedAt ≥ dragHoldThreshold
    · -- escalation frame: DragStart fires, drag mode set
      rw [if_pos hesc] at hstep
      have hs1A : (handleMouseControl s f.1 f.2).1.pinchActive = true := by
        rw [hpf.1, hstep]
        exact h0
      have hs1S : (handleMouseControl s f.1 f.2).1.pinchStartedAt = s.pinchStartedAt := by
        rw [hpf.2.1, hstep]
      have hs1D : (handleMouseControl s f.1 f.2).1.dragMode = true := by
        rw [hpf.2.2.1, hstep]
      have hs1C : (handleMouseControl s f.1 f.2).1.clickEnabled = true :=
        (handle_preserves_enabled s f.1 f.2).trans hce
      have hcrossAll : ∃ f2 ∈ f :: rest, dragHoldThreshold ≤ f2.2 - s.pinchStartedAt :=
        ⟨f, by simp, hesc.2⟩
      obtain ⟨ih1, ih2, ih3, ih4, ih5, ih6, ih7⟩ :=
        ih (handleMouseControl s f.1 f.2).1 hs1A hs1C (fun f2 hf2 => hl f2 (by simp [hf2]))
      rw [hs1D, hs1S] at ih6 ih7
      rw [if_neg (by simp)] at ih7
      refine ⟨by simpa only [mouseRun] using ih1,
        by simp only [mouseRun]; rw [ih2, hs1S], by simpa only [mouseRun] using ih3,
        ?_, ?_, ?_, ?_⟩
      · simp only [pinchRises]
        rw [if_neg (by simp [h0]), ih4]
      · simp only [pinchFalls]
        rw [if_neg (by simp [hs1A]), ih5]
      · simp only [mouseRun]
        rw [ih6, hesc.1]
        simp only [Bool.true_or, Bool.false_or]
        rw [eq_comm, decide_eq_true_eq]
        exact hcrossAll
      · simp only [mouseRun]
        rw [List.filter_append, hpf.2.2.2.2.2, hstep, ih7]
        rw [if_pos ⟨hesc.1, hcrossAll⟩]
        rfl
    · -- no escalation this frame
      rw [if_neg hesc] at hstep
      have hs1A : (handleMouseControl s f.1 f.2).1.pinchActive = true := by
        rw [hpf.1, hstep]
        exact h0
      have hs1S : (handleMouseControl s f.1 f.2).1.pinchStartedAt = s.pinchStartedAt := by
        rw [hpf.2.1, hstep]
      have hs1D : (handleMouseControl s f.1 f.2).1.dragMode = s.dragMode := by
        rw [hpf.2.2.1, hstep]
      have hs1C : (handleMouseControl s f.1 f.2).1.clickEnabled = true :=
        (handle_preserves_enabled s f.1 f.2).trans hce
      obtain ⟨ih1, ih2, ih3, ih4, ih5, ih6, ih7⟩ :=
        ih (handleMouseControl s f.1 f.2).1 hs1A hs1C (fun f2 hf2 => hl f2 (by simp [hf2]))
      rw [hs1D, hs1S] at ih6 ih7
      have hext : s.dragMode = false →
          ((∃ f2 ∈ f :: rest, dragHoldThreshold ≤ f2.2 - s.pinchStartedAt)
            ↔ (∃ f2 ∈ rest, dragHoldThreshold ≤ f2.2 - s.pinchStartedAt)) := by
        intro hdm
        constructor
        · rintro ⟨f2, hf2, hc2⟩
          rcases List.mem_cons.mp hf2 with rfl | hf2
          · exact absurd ⟨hdm, hc2⟩ hesc
          · exact ⟨f2, hf2, hc2⟩
        · rintro ⟨f2, hf2, hc2⟩
          exact ⟨f2, by simp [hf2], hc2⟩
      refine ⟨by simpa only [mouseRun] using ih1,
        by simp only [mouseRun]; rw [ih2, hs1S], by simpa only [mouseRun] using ih3,
        ?_, ?_, ?_, ?_⟩
      · simp only [pinchRises]
        rw [if_neg (by simp [h0]), ih4]
      · simp only [pinchFalls]
        rw [if_neg (by simp [hs1A]), ih5]
      · simp only [mouseRun]
        rw [ih6]
        by_cases hdm : s.dragMode = false
        · rw [hdm]
          simp only [Bool.false_or]
          rw [decide_eq_decide]
          exact (hext hdm).symm
        · have hdm2 : s.dragMode = true := by simpa using hdm
          rw [hdm2]
          simp
      · simp only [mouseRun]
        rw [List.filter_append, hpf.2.2.2.2.2, hstep, ih7]
        by_cases hcase : s.dragMode = false ∧ ∃ f2 ∈ rest, dragHoldThreshold ≤ f2.2 - s.pinchStartedAt
        · rw [if_pos hcase, if_pos ⟨hcase.1, (hext hcase.1).mpr hcase.2⟩]
          rfl
        · rw [if_neg hcase, if_neg (fun hc => hcase ⟨hc.1, (hext hc.1).mp hc.2⟩)]
          rfl


/-- A release frame always clears the pinch flag, whatever else it
does. -/
theorem leftBlock_release_inactive (s : MouseState) (g : Gesture) (t : ℚ)
    (h0 : s.pinchActive = true) (hce : s.clickEnabled = true)
    (hrel : g.thumbIndexDistance > pinchOff ∨ g.indexExtended = false) :
    (leftBlock s g t).1.pinchActive = false := by
  rw [leftBlock_release s g t h0 hce hrel]
  split_ifs <;> rfl

/-- With every sink call raising `FailSafeException`, the primary block
succeeds and produces the same state as a fully successful block except
for the fired-click timestamp. -/
theorem leftBlockF_failSafe (s : MouseState) (g : Gesture) (t : ℚ) :
    ∃ evs, leftBlockF failSafePlan s g t
      = .ok ({ (leftBlock s g t).1 with lastClickTime := s.lastClickTime }, evs) := by
  unfold leftBlockF leftBlock failSafePlan
  dsimp only
  split_ifs <;> exact ⟨_, rfl⟩

/-- With every sink call raising `FailSafeException`, the secondary
block succeeds and produces the same state as a fully successful block
except for the fired-right-click timestamp. -/
theorem rightBlockF_failSafe (s : MouseState) (g : Gesture) (t : ℚ) :
    ∃ evs, rightBlockF failSafePlan s g t
      = .ok ({ (rightBlock s g t).1 with lastRightClickTime := s.lastRightClickTime }, evs) := by
  unfold rightBlockF rightBlock failSafePlan
  dsimp only
  split_ifs <;> exact ⟨_, rfl⟩

/-- The secondary block never reads `last_click_time`: its channel
outcome is unchanged by that field. -/
theorem rightBlock_chanCore_congr (s : MouseState) (c : ℚ) (g : Gesture) (t : ℚ) :
    chanCore (rightBlock { s with lastClickTime := c } g t).1
      = chanCore (rightBlock s g t).1 := by
  unfold rightBlock chanCore
  dsimp only
  split_ifs <;> rfl

/-- With a both-hands-open frame, the hands block emits nothing (the
character path is gated on `not both_hands_open`) and leaves the gesture
timestamp and the mode untouched. -/
theorem kbHandsBlock_bothOpen (s0 : KbState) (f : KbFrame) :
    ∃ s1, kbHandsBlock s0 f true = .ok (s1, [])
      ∧ s1.lastGestureTime = s0.lastGestureTime
      ∧ s1.modeIndex = s0.modeIndex
      ∧ s1.currentMode = s0.currentMode := by
  unfold kbHandsBlock
  cases hh : f.hands.head? with
  | none => exact ⟨_, rfl, rfl, rfl, rfl⟩
  | some primary =>
    dsimp only
    split
    · split
      · split
        · split
          · simp only [Bool.true_eq_false, and_false, if_false]
            exact ⟨_, rfl, rfl, rfl, rfl⟩
          · exact ⟨_, rfl, rfl, rfl, rfl⟩
        · exact ⟨_, rfl, rfl, rfl, rfl⟩
      · exact ⟨_, rfl, rfl, rfl, rfl⟩
    · exact ⟨_, rfl, rfl, rfl, rfl⟩

/-- A selection processed by `type_key` (past the debounce gate) whose
label is neither `Shift` nor `Caps` always leaves the Shift latch
cleared: either the latch was set and the `finally:` block consumes it,
or it was never set. -/
theorem shiftFinally_clears (label : String) (st : VkState)
    (h1 : label ≠ "Shift") (h2 : label ≠ "Caps") :
    (shiftFinally label st).shiftLatched = false := by
  have hnotin : label ∉ ["Shift", "Caps"] := by simp [h1, h2]
  unfold shiftFinally
  split
  · rfl
  · next hcond =>
    cases hb : st.shiftLatched
    · rfl
    · exact absurd ⟨hb, hnotin⟩ hcond

/-- A selection processed by `type_key` (past the debounce gate) whose
label is neither `Shift` nor `Caps` always leaves the Shift latch
cleared. -/
theorem typeKey_clears_latch (s : VkState) (label : String) (t : ℚ)
    (hdeb : ¬ t - s.lastSelectTime < selectDebounce)
    (h1 : label ≠ "Shift") (h2 : label ≠ "Caps") :
    (typeKey s label t).1.shiftLatched = false := by
  unfold typeKey
  rw [if_neg hdeb]
  exact shiftFinally_clears label _ h1 h2

/-- `type_key` on a processed single-character alphabetic label: the
emitted character's case is `Caps XOR Shift-latch`. -/
theorem typeKey_alpha_out (s : VkState) (label : String) (c : Char) (t : ℚ)
    (hdeb : ¬ t - s.lastSelectTime < selectDebounce)
    (hc : label.toList = [c]) (halpha : c.isAlpha = true)
    (hspec : label ∉ ["Backspace", "Tab", "Enter", "Space", "Caps", "Shift",
      "Ctrl", "Alt", "Win", "Menu"]) :
    (typeKey s label t).2 = [VkEvent.selectKey label,
      VkEvent.typed (String.singleton
        (if xor s.capsLock s.shiftLatched then c.toUpper else c.toLower))] := by
  simp only [List.mem_cons, List.not_mem_nil, or_false, not_or] at hspec
  obtain ⟨h1, h2, h3, h4, h5, h6, h7, h8, h9, h10⟩ := hspec
  have hmem : label ∉ ["Ctrl", "Alt", "Win", "Menu"] := by simp [h7, h8, h9, h10]
  unfold typeKey typeKeyBody
  rw [if_neg hdeb]
  dsimp only
  rw [if_neg h1, if_neg h2, if_neg h3, if_neg h4, if_neg h5, if_neg h6, if_neg hmem, hc]
  simp [halpha]

/-- `type_key` on a processed single-character non-alphabetic label: the
shift-substitution table applies exactly when the latch is set. -/
theorem typeKey_nonalpha_out (s : VkState) (label : String) (c : Char) (t : ℚ)
    (hdeb : ¬ t - s.lastSelectTime < selectDebounce)
    (hc : label.toList = [c]) (halpha : c.isAlpha = false)
    (hspec : label ∉ ["Backspace", "Tab", "Enter", "Space", "Caps", "Shift",
      "Ctrl", "Alt", "Win", "Menu"]) :
    (typeKey s label t).2 = [VkEvent.selectKey label,
      VkEvent.typed (String.singleton
        (if s.shiftLatched then shiftedChar c else c))] := by
  simp only [List.mem_cons, List.not_mem_nil, or_false, not_or] at hspec
  obtain ⟨h1, h2, h3, h4, h5, h6, h7, h8, h9, h10⟩ := hspec
  have hmem : label ∉ ["Ctrl", "Alt", "Win", "Menu"] := by simp [h7, h8, h9, h10]
  unfold typeKey typeKeyBody
  rw [if_neg hdeb]
  dsimp only
  rw [if_neg h1, if_neg h2, if_neg h3, if_neg h4, if_neg h5, if_neg h6, if_neg hmem, hc]
  simp [halpha]

/-- `shiftFinally` touches nothing but the Shift latch. -/
theorem shiftFinally_preserves (label : String) (st : VkState) :
    (shiftFinally label st).selectionMethod = st.selectionMethod
    ∧ (shiftFinally label st).hoverKey = st.hoverKey
    ∧ (shiftFinally label st).hoverStartedAt = st.hoverStartedAt
    ∧ (shiftFinally label st).lastSelectTime = st.lastSelectTime
    ∧ (shiftFinally label st).pinchActive = st.pinchActive := by
  unfold shiftFinally
  split <;> exact ⟨rfl, rfl, rfl, rfl, rfl⟩

/-- The `try:` body of `type_key` touches nothing of the selection
channel's tracking state (method, hover, timestamps, pinch flag). -/
theorem typeKeyBody_preserves (s : VkState) (label : String) :
    (typeKeyBody s label).1.selectionMethod = s.selectionMethod
    ∧ (typeKeyBody s label).1.hoverKey = s.hoverKey
    ∧ (typeKeyBody s label).1.hoverStartedAt = s.hoverStartedAt
    ∧ (typeKeyBody s label).1.lastSelectTime = s.lastSelectTime
    ∧ (typeKeyBody s label).1.pinchActive = s.pinchActive := by
  unfold typeKeyBody
  split_ifs <;> try exact ⟨rfl, rfl, rfl, rfl, rfl⟩
  all_goals
    cases hl : label.toList with
    | nil => exact ⟨rfl, rfl, rfl, rfl, rfl⟩
    | cons c cs =>
      cases cs with
      | nil => exact ⟨rfl, rfl, rfl, rfl, rfl⟩
      | cons c2 cs2 => exact ⟨rfl, rfl, rfl, rfl, rfl⟩

/-- The `try:` body of `type_key` emits only sink events, never a
`selectKey`. -/
theorem typeKeyBody_no_select (s : VkState) (label : String) :
    (typeKeyBody s label).2.filter isSelect = [] := by
  unfold typeKeyBody
  split_ifs <;> try rfl
  all_goals
    cases hl : label.toList with
    | nil => rfl
    | cons c cs =>
      cases cs with
      | nil => rfl
      | cons c2 cs2 => rfl

/-- A `type_key` call that passes the debounce gate records exactly one
accepted selection, restamps `last_select_time`, and leaves the
dwell/pinch tracking state alone. -/
theorem typeKey_fire (s : VkState) (label : String) (t : ℚ)
    (hdeb : ¬ t - s.lastSelectTime < selectDebounce) :
    (typeKey s label t).1.selectionMethod = s.selectionMethod
    ∧ (typeKey s label t).1.hoverKey = s.hoverKey
    ∧ (typeKey s label t).1.lastSelectTime = t
    ∧ (typeKey s label t).1.pinchActive = s.pinchActive
    ∧ (typeKey s label t).2.filter isSelect = [VkEvent.selectKey label] := by
  unfold typeKey
  rw [if_neg hdeb]
  dsimp only
  have hsf := shiftFinally_preserves label (typeKeyBody { s with lastSelectTime := t } label).1
  have hbp := typeKeyBody_preserves { s with lastSelectTime := t } label
  refine ⟨?_, ?_, ?_, ?_, ?_⟩
  · rw [hsf.1, hbp.1]
  · rw [hsf.2.1, hbp.2.1]
  · rw [hsf.2.2.2.1, hbp.2.2.2.1]
  · rw [hsf.2.2.2.2, hbp.2.2.2.2]
  · show List.filter isSelect
        (VkEvent.selectKey label :: (typeKeyBody { s with lastSelectTime := t } label).2)
      = [VkEvent.selectKey label]
    rw [List.filter_cons_of_pos (by rfl), typeKeyBody_no_select]

/-- Run state of the virtual-keyboard loop over an appended trace. -/
theorem vkRun_state_append (l1 l2 : List VkFrame) : ∀ (s : VkState),
    (vkRun s (l1 ++ l2)).1 = (vkRun (vkRun s l1).1 l2).1 := by
  induction l1 with
  | nil => intro s; rfl
  | cons f rest ih =>
    intro s
    simp only [List.cons_append, vkRun, List.append_eq]
    exact ih _

/-- Per-frame events of the virtual-keyboard loop over an appended
trace. -/
theorem vkRun_events_append (l1 l2 : List VkFrame) : ∀ (s : VkState),
    (vkRun s (l1 ++ l2)).2 = (vkRun s l1).2 ++ (vkRun (vkRun s l1).1 l2).2 := by
  induction l1 with
  | nil => intro s; rfl
  | cons f rest ih =>
    intro s
    simp only [List.cons_append, vkRun, List.append_eq]
    rw [ih]

/-- The dwell trigger criterion in frame indices: with frames every
`dt` and `m · dt = dwell_threshold`, frame `n+1` reaches the threshold
since the last reset at frame `n / m * m` exactly when `m` divides
`n + 1`. -/
theorem dwellFireCriterion (m n : ℕ) (hm : 1 ≤ m) :
    (m + n / m * m ≤ n + 1) ↔ m ∣ (n + 1) := by
  rcases Nat.lt_or_ge 1 m with hm2 | hm1
  · have hdm := Nat.div_add_mod n m
    have hdm2 : n / m * m + n % m = n := by
      rw [Nat.mul_comm] at hdm
      exact hdm
    have hmod : n % m < m := Nat.mod_lt n (by omega)
    constructor
    · intro h
      refine ⟨n / m + 1, ?_⟩
      rw [Nat.mul_add, Nat.mul_one, Nat.mul_comm]
      omega
    · rintro ⟨k, hk⟩
      have h0 : (n % m + 1) % m = 0 := by
        have e1 : (n + 1) % m = (n % m + 1) % m := by
          conv_lhs => rw [Nat.add_mod]
          rw [Nat.mod_eq_of_lt hm2]
        rw [← e1, hk]
        exact Nat.mul_mod_right m k
      have hsum : n % m + 1 = m := by
        rcases Nat.lt_or_ge (n % m + 1) m with hlt | hge
        · rw [Nat.mod_eq_of_lt hlt] at h0
          omega
        · omega
      omega
  · have hm0 : m = 1 := by omega
    subst hm0
    simp
    omega

/-- One dwell-mode frame hovering a key other than the tracked one:
the hover scratch is retargeted and stamped with the frame time, and
nothing fires on that frame. -/
theorem vkStep_dwell_reset (s0 : VkState) (K : String) (pd : ℚ) (ie : Bool) (t : ℚ)
    (hsm : s0.selectionMethod = "dwell") (hne : some K ≠ s0.hoverKey) :
    vkStep s0 ⟨some ⟨some K, pd, ie⟩, t⟩
      = ({ s0 with hoverKey := some K, hoverStartedAt := t }, []) := by
  unfold vkStep
  dsimp only
  rw [if_pos hsm, if_pos hne]
  dsimp only
  rw [if_neg (show ¬ t - t ≥ dwellThreshold by rw [sub_self]; norm_num [dwellThreshold])]
  rw [if_neg (show ¬ (s0.selectionMethod = "pinch" ∧ ie = true) by
    rintro ⟨hp1, -⟩
    rw [hsm] at hp1
    exact absurd hp1 (by decide))]
  rfl

/-- One dwell-mode frame continuing a hover below the threshold: the
state is untouched and nothing is emitted. -/
theorem vkStep_dwell_noReset_noFire (s0 : VkState) (K : String) (pd : ℚ) (ie : Bool)
    (t : ℚ)
    (hsm : s0.selectionMethod = "dwell") (hk : s0.hoverKey = some K)
    (hnf : ¬ t - s0.hoverStartedAt ≥ dwellThreshold) :
    vkStep s0 ⟨some ⟨some K, pd, ie⟩, t⟩ = (s0, []) := by
  unfold vkStep
  dsimp only
  rw [if_pos hsm, if_neg (show ¬ (some K ≠ s0.hoverKey) by rw [hk]; simp)]
  rw [if_neg hnf]
  rw [if_neg (show ¬ (s0.selectionMethod = "pinch" ∧ ie = true) by
    rintro ⟨hp1, -⟩
    rw [hsm] at hp1
    exact absurd hp1 (by decide))]
  rfl

/-- One dwell-mode frame whose continuing hover reaches the threshold:
`type_key` runs on the current state and the hover-start timestamp is
restamped with the frame time. -/
theorem vkStep_dwell_noReset_fire (s0 : VkState) (K : String) (pd : ℚ) (ie : Bool)
    (t : ℚ)
    (hsm : s0.selectionMethod = "dwell") (hk : s0.hoverKey = some K)
    (hf : t - s0.hoverStartedAt ≥ dwellThreshold)
    (hdeb : ¬ t - s0.lastSelectTime < selectDebounce) :
    vkStep s0 ⟨some ⟨some K, pd, ie⟩, t⟩
      = ({ (typeKey s0 K t).1 with hoverStartedAt := t }, (typeKey s0 K t).2) := by
  unfold vkStep
  dsimp only
  rw [if_pos hsm, if_neg (show ¬ (some K ≠ s0.hoverKey) by rw [hk]; simp)]
  rw [if_pos hf]
  dsimp only
  rw [if_neg (show ¬ ((typeKey s0 K t).1.selectionMethod = "pinch" ∧ ie = true) by
    rintro ⟨hp1, -⟩
    rw [(typeKey_fire s0 K t hdeb).1, hsm] at hp1
    exact absurd hp1 (by decide))]
  simp

/-- Accepted-selection count is additive over runs. -/
theorem countSelects_append (a b : List (List VkEvent)) :
    countSelects (a ++ b) = countSelects a + countSelects b := by
  simp [countSelects]

/-- Invariant of an aligned dwell run: frames every `dt` with
`m · dt = dwell_threshold`, all hovering key `K` from a fresh hover.
After frames `0..n` the hover-start and last-select timestamps both sit
at the last firing frame `n / m * m`, the run has fired `n / m` accepted
selections, and the per-frame selection counts are the indicator of the
positive multiples of `m`. -/
theorem dwellRun_invariant (s0 : VkState) (K : String) (pd : ℚ) (ie : Bool)
    (dt : ℚ) (m : ℕ)
    (hsm : s0.selectionMethod = "dwell") (hhk : s0.hoverKey = none)
    (hls : s0.lastSelectTime = 0)
    (hm : 1 ≤ m) (hdt : 0 < dt) (hmdt : (m : ℚ) * dt = dwellThreshold) :
    ∀ n : ℕ,
    (vkRun s0 (dwellFrames K pd ie dt (n+1))).1.selectionMethod = "dwell"
    ∧ (vkRun s0 (dwellFrames K pd ie dt (n+1))).1.hoverKey = some K
    ∧ (vkRun s0 (dwellFrames K pd ie dt (n+1))).1.hoverStartedAt
        = ((n / m * m : ℕ) : ℚ) * dt
    ∧ (vkRun s0 (dwellFrames K pd ie dt (n+1))).1.lastSelectTime
        = ((n / m * m : ℕ) : ℚ) * dt
    ∧ countSelects (vkRun s0 (dwellFrames K pd ie dt (n+1))).2 = n / m
    ∧ (vkRun s0 (dwellFrames K pd ie dt (n+1))).2.map
         (fun evs => (evs.filter isSelect).length)
        = (List.range (n+1)).map (fun i => if m ∣ i ∧ i ≠ 0 then 1 else 0) := by
  intro n
  induction n with
  | zero =>
    have hne : some K ≠ s0.hoverKey := by rw [hhk]; simp
    have hstep := vkStep_dwell_reset s0 K pd ie (((0:ℕ) : ℚ) * dt) hsm hne
    have hrun : vkRun s0 (dwellFrames K pd ie dt (0+1))
        = ({ s0 with hoverKey := some K, hoverStartedAt := ((0:ℕ) : ℚ) * dt }, [[]]) := by
      show vkRun s0 [(⟨some ⟨some K, pd, ie⟩, ((0:ℕ) : ℚ) * dt⟩ : VkFrame)] = _
      simp only [vkRun]
      rw [hstep]
    rw [hrun]
    refine ⟨hsm, rfl, ?_, ?_, ?_, ?_⟩
    · simp
    · simp [hls]
    · simp [countSelects, Nat.zero_div]
    · rw [show List.range 1 = [0] from rfl]
      simp
  | succ n ih =>
    obtain ⟨ih1, ih2, ih3, ih4, ih5, ih6⟩ := ih
    have hfr : dwellFrames K pd ie dt (n+1+1)
        = dwellFrames K pd ie dt (n+1)
          ++ [⟨some ⟨some K, pd, ie⟩, ((n+1 : ℕ) : ℚ) * dt⟩] := by
      unfold dwellFrames
      rw [List.range_succ, List.map_append]
      rfl
    have hsplit1 : (vkRun s0 (dwellFrames K pd ie dt (n+1)
          ++ [(⟨some ⟨some K, pd, ie⟩, ((n+1 : ℕ) : ℚ) * dt⟩ : VkFrame)])).1
        = (vkStep (vkRun s0 (dwellFrames K pd ie dt (n+1))).1
            ⟨some ⟨some K, pd, ie⟩, ((n+1 : ℕ) : ℚ) * dt⟩).1 := by
      rw [vkRun_state_append]
      simp [vkRun]
    have hsplit2 : (vkRun s0 (dwellFrames K pd ie dt (n+1)
          ++ [(⟨some ⟨some K, pd, ie⟩, ((n+1 : ℕ) : ℚ) * dt⟩ : VkFrame)])).2
        = (vkRun s0 (dwellFrames K pd ie dt (n+1))).2
          ++ [(vkStep (vkRun s0 (dwellFrames K pd ie dt (n+1))).1
                ⟨some ⟨some K, pd, ie⟩, ((n+1 : ℕ) : ℚ) * dt⟩).2] := by
      rw [vkRun_events_append]
      simp [vkRun]
    have hmu : ((n / m * m : ℕ) : ℚ) = ((n / m : ℕ) : ℚ) * (m : ℚ) := by
      push_cast
      ring
    have hnp : ((n + 1 : ℕ) : ℚ) = (n : ℚ) + 1 := by push_cast; ring
    by_cases hfire : m + n / m * m ≤ n + 1
    · -- the new frame reaches the threshold: m divides n+1 and type_key fires
      have hdvd : m ∣ (n+1) := (dwellFireCriterion m n hm).mp hfire
      have hmul : (n+1) / m * m = n + 1 := Nat.div_mul_cancel hdvd
      have h1 : (m : ℚ) ≤ ((n+1 : ℕ) : ℚ) - ((n / m * m : ℕ) : ℚ) := by
        rw [hmu, hnp]
        have h0 : (m : ℚ) + ((n / m : ℕ) : ℚ) * (m : ℚ) ≤ (n : ℚ) + 1 := by
          exact_mod_cast hfire
        linarith
      have hge : ((n+1 : ℕ) : ℚ) * dt - ((n / m * m : ℕ) : ℚ) * dt ≥ dwellThreshold := by
        rw [← hmdt, ← sub_mul]
        exact mul_le_mul_of_nonneg_right h1 hdt.le
      have hf : ((n+1 : ℕ) : ℚ) * dt
          - (vkRun s0 (dwellFrames K pd ie dt (n+1))).1.hoverStartedAt ≥ dwellThreshold := by
        rw [ih3]; exact hge
      have hdeb : ¬ ((n+1 : ℕ) : ℚ) * dt
          - (vkRun s0 (dwellFrames K pd ie dt (n+1))).1.lastSelectTime < selectDebounce := by
        rw [ih4]
        have h2 : selectDebounce ≤ dwellThreshold := by
          norm_num [selectDebounce, dwellThreshold]
        exact not_lt.mpr (le_trans h2 hge)
      have hstep := vkStep_dwell_noReset_fire (vkRun s0 (dwellFrames K pd ie dt (n+1))).1
        K pd ie (((n+1 : ℕ) : ℚ) * dt) ih1 ih2 hf hdeb
      have htf := typeKey_fire (vkRun s0 (dwellFrames K pd ie dt (n+1))).1
        K (((n+1 : ℕ) : ℚ) * dt) hdeb
      refine ⟨?_, ?_, ?_, ?_, ?_, ?_⟩
      · rw [hfr, hsplit1, hstep]
        show (typeKey (vkRun s0 (dwellFrames K pd ie dt (n+1))).1
            K (((n+1 : ℕ) : ℚ) * dt)).1.selectionMethod = "dwell"
        rw [htf.1]; exact ih1
      · rw [hfr, hsplit1, hstep]
        show (typeKey (vkRun s0 (dwellFrames K pd ie dt (n+1))).1
            K (((n+1 : ℕ) : ℚ) * dt)).1.hoverKey = some K
        rw [htf.2.1]; exact ih2
      · rw [hfr, hsplit1, hstep]
        show ((n+1 : ℕ) : ℚ) * dt = (((n+1) / m * m : ℕ) : ℚ) * dt
        rw [hmul]
      · rw [hfr, hsplit1, hstep]
        show (typeKey (vkRun s0 (dwellFrames K pd ie dt (n+1))).1
            K (((n+1 : ℕ) : ℚ) * dt)).1.lastSelectTime = (((n+1) / m * m : ℕ) : ℚ) * dt
        rw [htf.2.2.1, hmul]
      · have hstep2 : (vkStep (vkRun s0 (dwellFrames K pd ie dt (n+1))).1
            ⟨some ⟨some K, pd, ie⟩, ((n+1 : ℕ) : ℚ) * dt⟩).2
            = (typeKey (vkRun s0 (dwellFrames K pd ie dt (n+1))).1
                K (((n+1 : ℕ) : ℚ) * dt)).2 := by
          rw [hstep]
        rw [hfr, hsplit2, countSelects_append, ih5, hstep2]
        have hc1 : countSelects [(typeKey (vkRun s0 (dwellFrames K pd ie dt (n+1))).1
            K (((n+1 : ℕ) : ℚ) * dt)).2] = 1 := by
          simp only [countSelects, List.map_cons, List.map_nil, List.sum_cons, List.sum_nil]
          rw [htf.2.2.2.2]
          rfl
        rw [hc1, Nat.succ_div, if_pos hdvd]
      · have hstep2 : (vkStep (vkRun s0 (dwellFrames K pd ie dt (n+1))).1
            ⟨some ⟨some K, pd, ie⟩, ((n+1 : ℕ) : ℚ) * dt⟩).2
            = (typeKey (vkRun s0 (dwellFrames K pd ie dt (n+1))).1
                K (((n+1 : ℕ) : ℚ) * dt)).2 := by
          rw [hstep]
        rw [hfr, hsplit2, List.map_append, ih6, hstep2]
        rw [show List.range (n+1+1) = List.range (n+1) ++ [n+1] from List.range_succ (n+1)]
        rw [List.map_append]
        congr 1
        simp only [List.map_cons, List.map_nil]
        rw [htf.2.2.2.2]
        rw [if_pos (show m ∣ (n+1) ∧ (n+1) ≠ 0 from ⟨hdvd, by omega⟩)]
        rfl
    · -- no firing on the new frame: the channel idles through it
      have hdvd : ¬ m ∣ (n+1) := fun h => hfire ((dwellFireCriterion m n hm).mpr h)
      have h1 : ((n+1 : ℕ) : ℚ) - ((n / m * m : ℕ) : ℚ) < (m : ℚ) := by
        rw [hmu, hnp]
        have h0 : (n : ℚ) + 1 < (m : ℚ) + ((n / m : ℕ) : ℚ) * (m : ℚ) := by
          exact_mod_cast not_le.mp hfire
        linarith
      have hlt : ((n+1 : ℕ) : ℚ) * dt - ((n / m * m : ℕ) : ℚ) * dt < dwellThreshold := by
        rw [← hmdt, ← sub_mul]
        exact mul_lt_mul_of_pos_right h1 hdt
      have hnf : ¬ (((n+1 : ℕ) : ℚ) * dt
          - (vkRun s0 (dwellFrames K pd ie dt (n+1))).1.hoverStartedAt ≥ dwellThreshold) := by
        rw [ih3]; exact not_le.mpr hlt
      have hstep := vkStep_dwell_noReset_noFire (vkRun s0 (dwellFrames K pd ie dt (n+1))).1
        K pd ie (((n+1 : ℕ) : ℚ) * dt) ih1 ih2 hnf
      have hdiv : (n+1) / m = n / m := by
        rw [Nat.succ_div, if_neg hdvd]
        omega
      refine ⟨?_, ?_, ?_, ?_, ?_, ?_⟩
      · rw [hfr, hsplit1, hstep]; exact ih1
      · rw [hfr, hsplit1, hstep]; exact ih2
      · rw [hfr, hsplit1, hstep]
        show (vkRun s0 (dwellFrames K pd ie dt (n+1))).1.hoverStartedAt
            = (((n+1) / m * m : ℕ) : ℚ) * dt
        rw [ih3, hdiv]
      · rw [hfr, hsplit1, hstep]
        show (vkRun s0 (dwellFrames K pd ie dt (n+1))).1.lastSelectTime
            = (((n+1) / m * m : ℕ) : ℚ) * dt
        rw [ih4, hdiv]
      · rw [hfr, hsplit2, countSelects_append, ih5, hstep, hdiv]
        simp [countSelects]
      · rw [hfr, hsplit2, List.map_append, ih6, hstep]
        rw [show List.range (n+1+1) = List.range (n+1) ++ [n+1] from List.range_succ (n+1)]
        rw [List.map_append]
        congr 1
        simp only [List.map_cons, List.map_nil]
        rw [if_neg (show ¬ (m ∣ (n+1) ∧ (n+1) ≠ 0) from fun h => hdvd h.1)]
        rfl

/-- With a single detected hand, `both_hands_open` is false and the
mode-change check at the loop's end never fires: a step is exactly the
hands block. -/
theorem kbStep_oneHand (s0 : KbState) (hd : KbHand) (t : ℚ) :
    kbStep s0 ⟨[hd], t⟩ = kbHandsBlock s0 ⟨[hd], t⟩ false := by
  unfold kbStep
  dsimp only
  have hBoth : (decide ((⟨[hd], t⟩ : KbFrame).hands.length = 2)
      && (⟨[hd], t⟩ : KbFrame).hands.all (fun h => h.fingerCount == 5)) = false := by
    simp
  rw [hBoth]
  cases hb : kbHandsBlock s0 ⟨[hd], t⟩ false with
  | error e => rfl
  | ok p =>
    obtain ⟨s1, evs⟩ := p
    dsimp only
    rw [if_neg (show ¬ (false = true ∧ (⟨[hd], t⟩ : KbFrame).time - s1.lastGestureTime > 2) by
      rintro ⟨h, -⟩
      exact absurd h (by decide))]

/-- Hands block, history still shorter than the 3-frame window: only
the tracking state is pushed. -/
theorem kbHandsBlock_short (s0 : KbState) (hd : KbHand) (t : ℚ)
    (hlen : ¬ (dequePush 5 s0.fingerCountHistory hd.fingerCount).length ≥ 3) :
    kbHandsBlock s0 ⟨[hd], t⟩ false
      = .ok ({ s0 with
          fingerCountHistory := dequePush 5 s0.fingerCountHistory hd.fingerCount,
          zoneHistory := dequePush 5 s0.zoneHistory hd.zone,
          currentZone := hd.zone }, []) := by
  unfold kbHandsBlock
  dsimp only [List.head?_cons]
  rw [if_neg hlen]

/-- Hands block, unstable 3-frame window: confirmation resets. -/
theorem kbHandsBlock_reset (s0 : KbState) (hd : KbHand) (t : ℚ)
    (hlen : (dequePush 5 s0.fingerCountHistory hd.fingerCount).length ≥ 3)
    (hunst : ¬ ((takeLast 3 (dequePush 5 s0.fingerCountHistory hd.fingerCount)).dedup.length = 1
        ∧ (takeLast 3 (dequePush 5 s0.zoneHistory hd.zone)).dedup.length = 1)) :
    kbHandsBlock s0 ⟨[hd], t⟩ false
      = .ok ({ s0 with
          fingerCountHistory := dequePush 5 s0.fingerCountHistory hd.fingerCount,
          zoneHistory := dequePush 5 s0.zoneHistory hd.zone,
          currentZone := hd.zone,
          gestureConfirmed := false,
          confirmationFrames := 0,
          lastFingerCount := hd.fingerCount }, []) := by
  unfold kbHandsBlock
  dsimp only [List.head?_cons]
  rw [if_pos hlen]
  try dsimp only
  rw [if_neg hunst]

/-- Hands block, stable window, unconfirmed, counter still below
`required_confirmation`: the counter advances and nothing is emitted. -/
theorem kbHandsBlock_count (s0 : KbState) (hd : KbHand) (t : ℚ)
    (hlen : (dequePush 5 s0.fingerCountHistory hd.fingerCount).length ≥ 3)
    (hst : (takeLast 3 (dequePush 5 s0.fingerCountHistory hd.fingerCount)).dedup.length = 1
        ∧ (takeLast 3 (dequePush 5 s0.zoneHistory hd.zone)).dedup.length = 1)
    (hconf : s0.gestureConfirmed = false)
    (hbelow : ¬ s0.confirmationFrames + 1 ≥ requiredConfirmation) :
    kbHandsBlock s0 ⟨[hd], t⟩ false
      = .ok ({ s0 with
          fingerCountHistory := dequePush 5 s0.fingerCountHistory hd.fingerCount,
          zoneHistory := dequePush 5 s0.zoneHistory hd.zone,
          currentZone := hd.zone,
          confirmationFrames := s0.confirmationFrames + 1 }, []) := by
  unfold kbHandsBlock
  dsimp only [List.head?_cons]
  rw [if_pos hlen]
  try dsimp only
  rw [if_pos hst]
  try dsimp only
  rw [if_pos hconf]
  try dsimp only
  rw [if_neg hbelow]

/-- Hands block, stable window, unconfirmed, counter reaching
`required_confirmation` with typing enabled, debounce elapsed and a
mapped gesture: the gesture confirms and emits exactly one action. -/
theorem kbHandsBlock_fire (s0 : KbState) (hd : KbHand) (t : ℚ) (a : String)
    (hlen : (dequePush 5 s0.fingerCountHistory hd.fingerCount).length ≥ 3)
    (hst : (takeLast 3 (dequePush 5 s0.fingerCountHistory hd.fingerCount)).dedup.length = 1
        ∧ (takeLast 3 (dequePush 5 s0.zoneHistory hd.zone)).dedup.length = 1)
    (hconf : s0.gestureConfirmed = false)
    (hreach : s0.confirmationFrames + 1 ≥ requiredConfirmation)
    (hen : s0.typingEnabled = true)
    (hdeb : ¬ t - s0.lastGestureTime < gestureDebounce)
    (hact : gestureAction s0.currentMode hd.fingerCount hd.zone = .ok (some a)) :
    kbHandsBlock s0 ⟨[hd], t⟩ false
      = .ok ({ s0 with
          fingerCountHistory := dequePush 5 s0.fingerCountHistory hd.fingerCount,
          zoneHistory := dequePush 5 s0.zoneHistory hd.zone,
          currentZone := hd.zone,
          gestureConfirmed := true,
          confirmationFrames := s0.confirmationFrames + 1,
          lastFingerCount := hd.fingerCount,
          currentText := executeAction .ok a s0.currentText,
          lastGestureTime := t }, [KbEvent.action a]) := by
  unfold kbHandsBlock
  dsimp only [List.head?_cons]
  rw [if_pos hlen]
  try dsimp only
  rw [if_pos hst]
  try dsimp only
  rw [if_pos hconf]
  try dsimp only
  rw [if_pos hreach]
  try dsimp only
  rw [if_pos (show s0.typingEnabled = true ∧ false = false from ⟨hen, rfl⟩)]
  unfold processGesture
  try dsimp only
  rw [if_neg hdeb, hact]

/-- Hands block, stable window with the gesture already confirmed: only
the tracking state is pushed and nothing is emitted. -/
theorem kbHandsBlock_confirmed (s0 : KbState) (hd : KbHand) (t : ℚ)
    (hlen : (dequePush 5 s0.fingerCountHistory hd.fingerCount).length ≥ 3)
    (hst : (takeLast 3 (dequePush 5 s0.fingerCountHistory hd.fingerCount)).dedup.length = 1
        ∧ (takeLast 3 (dequePush 5 s0.zoneHistory hd.zone)).dedup.length = 1)
    (hconf : s0.gestureConfirmed = true) :
    kbHandsBlock s0 ⟨[hd], t⟩ false
      = .ok ({ s0 with
          fingerCountHistory := dequePush 5 s0.fingerCountHistory hd.fingerCount,
          zoneHistory := dequePush 5 s0.zoneHistory hd.zone,
          currentZone := hd.zone }, []) := by
  unfold kbHandsBlock
  dsimp only [List.head?_cons]
  rw [if_pos hlen]
  try dsimp only
  rw [if_pos hst]
  try dsimp only
  rw [if_neg (show ¬ s0.gestureConfirmed = false by rw [hconf]; simp)]

/-- A frame of the held pair in the post-confirmation steady state is a
complete no-op: histories already saturated with the pair, nothing is
emitted, the state returns exactly. -/
theorem kbStep_steady (s : KbState) (c : ℕ) (z : String) (t : ℚ)
    (hfh : s.fingerCountHistory = [c, c, c, c, c])
    (hzh : s.zoneHistory = [some z, some z, some z, some z, some z])
    (hcz : s.currentZone = some z)
    (hcf : s.gestureConfirmed = true) :
    kbStep s ⟨[⟨c, some z⟩], t⟩ = .ok (s, []) := by
  cases s with
  | mk te ct lgt fch lfc gc cf cz zh cm mi =>
    dsimp only at hfh hzh hcz hcf
    subst hfh
    subst hzh
    subst hcz
    subst hcf
    rw [kbStep_oneHand]
    have hdc : ([c, c, c] : List ℕ).dedup.length = 1 := by
      rw [List.dedup_cons_of_mem (by simp), List.dedup_cons_of_mem (by simp)]
      simp
    have hdz : ([some z, some z, some z] : List (Option String)).dedup.length = 1 := by
      rw [List.dedup_cons_of_mem (by simp), List.dedup_cons_of_mem (by simp)]
      simp
    exact kbHandsBlock_confirmed _ ⟨c, some z⟩ t (show (5:ℕ) ≥ 3 by decide) ⟨hdc, hdz⟩ rfl

/-- Iterating `kbStep_steady`: any tail of held-pair frames after
confirmation emits nothing at all. -/
theorem kbRun_steady (s : KbState) (c : ℕ) (z : String)
    (hfh : s.fingerCountHistory = [c, c, c, c, c])
    (hzh : s.zoneHistory = [some z, some z, some z, some z, some z])
    (hcz : s.currentZone = some z)
    (hcf : s.gestureConfirmed = true) :
    ∀ ts : List ℚ,
    kbRun s (ts.map (fun t => ⟨[⟨c, some z⟩], t⟩)) = .ok (s, List.replicate ts.length []) := by
  intro ts
  induction ts with
  | nil => rfl
  | cons t ts ih =>
    simp only [List.map_cons, kbRun]
    rw [kbStep_steady s c z t hfh hzh hcz hcf]
    dsimp only
    rw [ih]
    rfl

/-! ## Claim theorems -/

/-- C1, counterexample.  The claimed invariant `¬(drag_mode ∧
right_pinch_active)` fails on a reachable state: with the hand initially
not pointing, the thumb-middle pinch arms the secondary channel first
(frame 1); the primary channel then arms (frame 2) and escalates to drag
(frame 3) while the secondary channel is still armed, since the
secondary release condition (`thumb_middle_distance > right_off`) never
fires.  Final state: `drag_mode = true` and `right_pinch_active = true`
simultaneously. -/
theorem C1_drag_right_exclusion_counterexample :
    ((mouseRun mouseInit
      [(⟨100, 10, false⟩, 1), (⟨10, 10, true⟩, 2), (⟨10, 10, true⟩, 3)]).1.dragMode = true)
    ∧ ((mouseRun mouseInit
      [(⟨100, 10, false⟩, 1), (⟨10, 10, true⟩, 2), (⟨10, 10, true⟩, 3)]).1.rightPinchActive
        = true) := by
  with_unfolding_all decide

/-- C2, counterexample.  An arm cycle (armed at `t0 = 10`, released at
`t = 10.4`, held duration `0.4 ≥ drag_hold_threshold = 0.35`) in which
no intermediate frame observed the held pinch: the channel never
escalated to drag, and the release emits nothing at all — neither
DragStart, DragEnd nor Click — contradicting the claimed emitted
sequence DragStart‥DragEnd. -/
theorem C2_drag_cycle_counterexample :
    ((mouseRun mouseInit [(⟨10, 100, true⟩, 10)]).1.pinchActive = true)
    ∧ ((mouseRun mouseInit [(⟨10, 100, true⟩, 10)]).1.pinchStartedAt = 10)
    ∧ ((52 : ℚ)/5 - 10 ≥ dragHoldThreshold)
    ∧ ((mouseRun mouseInit
        [(⟨10, 100, true⟩, 10), (⟨100, 100, true⟩, 52/5)]).1.pinchActive = false)
    ∧ ((mouseRun mouseInit
        [(⟨10, 100, true⟩, 10), (⟨100, 100, true⟩, 52/5)]).2.filter isPrimary = []) := by
  with_unfolding_all decide

/-- C4, counterexample.  A `(count, zone)` pair held stable for exactly
`required_confirmation = 8` consecutive frames immediately after a
differing frame (typing enabled, one hand, debounce elapsed) emits
nothing at all: the 3-frame stability window still straddles the
differing frame for the first two frames of the run, so the
confirmation counter only reaches 6.  The claim predicted exactly one
symbol, at the 8th stable frame. -/
theorem C4_confirmation_counterexample :
    (kbRun kbInit
      [⟨[⟨2, some "mid_center"⟩], 10⟩,
       ⟨[⟨1, some "mid_center"⟩], 11⟩, ⟨[⟨1, some "mid_center"⟩], 12⟩,
       ⟨[⟨1, some "mid_center"⟩], 13⟩, ⟨[⟨1, some "mid_center"⟩], 14⟩,
       ⟨[⟨1, some "mid_center"⟩], 15⟩, ⟨[⟨1, some "mid_center"⟩], 16⟩,
       ⟨[⟨1, some "mid_center"⟩], 17⟩, ⟨[⟨1, some "mid_center"⟩], 18⟩]).toOption.map
        (fun r => r.2)
      = some (List.replicate 9 []) := by
  with_unfolding_all decide

/-- C5: `process_gesture` is not total over the reachable modes.  Two
sustained two-hands-open gestures cycle the mode
LETTERS → NUMBERS → SYMBOLS; `"SYMBOLS"` is in `self.modes` but absent
from `self.character_maps`, so once a non-special gesture (here one
finger in `top_left`) passes confirmation, the dictionary access
`self.character_maps[self.current_mode]` raises `KeyError`, which
aborts the whole run loop instead of yielding no action. -/
theorem C5_process_gesture_symbols_key_error :
    ((kbRun kbInit
      [⟨[⟨5, some "mid_center"⟩, ⟨5, some "mid_center"⟩], 10⟩,
       ⟨[⟨5, some "mid_center"⟩, ⟨5, some "mid_center"⟩], 13⟩]).toOption.map
        (fun r => r.1.currentMode) = some "SYMBOLS")
    ∧ (exceptError (kbRun kbInit
      [⟨[⟨5, some "mid_center"⟩, ⟨5, some "mid_center"⟩], 10⟩,
       ⟨[⟨5, some "mid_center"⟩, ⟨5, some "mid_center"⟩], 13⟩,
       ⟨[⟨1, some "top_left"⟩], 14⟩, ⟨[⟨1, some "top_left"⟩], 15⟩,
       ⟨[⟨1, some "top_left"⟩], 16⟩, ⟨[⟨1, some "top_left"⟩], 17⟩,
       ⟨[⟨1, some "top_left"⟩], 18⟩, ⟨[⟨1, some "top_left"⟩], 19⟩,
       ⟨[⟨1, some "top_left"⟩], 20⟩, ⟨[⟨1, some "top_left"⟩], 21⟩,
       ⟨[⟨1, some "top_left"⟩], 22⟩, ⟨[⟨1, some "top_left"⟩], 23⟩]) = some ())
    ∧ (exceptError (gestureAction "SYMBOLS" 1 (some "top_left")) = some ()) := by
  refine ⟨by with_unfolding_all decide, by with_unfolding_all decide, by with_unfolding_all decide⟩

/-- C6, counterexample.  A sink failure that is not a
`FailSafeException` (here `pyautogui.click()` raising on a quick-pinch
release) is *not* caught at the call site: `handle_mouse_control`
propagates it, and in `run` only the loop-terminating outer
`except Exception` handler catches it. -/
theorem C6_sink_failure_counterexample :
    exceptError (handleMouseControlF ⟨.ok, .ok, .err, .ok, .ok⟩
      { mouseInit with pinchActive := true, pinchStartedAt := 10 }
      ⟨100, 100, true⟩ (51/5))
      = some { mouseInit with pinchActive := true, pinchStartedAt := 10 } := by
  with_unfolding_all decide

/-- C7, counterexample.  The Shift latch is *not* consumed by the next
processed key selection when that selection is `Caps`: after
SelectKey(Shift) then SelectKey(Caps) the latch is still set, and a
following SelectKey('A') — with Caps now on and the latch still
latched — emits lowercase `"a"` (`Caps XOR Shift = false`). -/
theorem C7_shift_latch_counterexample :
    ((typeKey (typeKey vkInit "Shift" 1).1 "Caps" 2).1.shiftLatched = true)
    ∧ ((typeKey (typeKey (typeKey vkInit "Shift" 1).1 "Caps" 2).1 "A" 3).2
        = [VkEvent.selectKey "A", VkEvent.typed "a"]) := by
  with_unfolding_all decide

/-- C8, counterexample.  Continuous hover of duration `D = 1.4 s` on key
`"A"` (dwell mode), sampled by frames at `t = 0` and `t = 1.4`, yields
exactly one SelectKey firing, while `D / dwell_threshold = 2`: the
claimed `⌊D / dwell_threshold⌋` cadence fails because firing happens at
frame times, and the hover-start is reset to the firing frame's time. -/
theorem C8_dwell_cadence_counterexample :
    (countSelects (vkRun vkInit
      [⟨some ⟨some "A", 100, true⟩, 0⟩, ⟨some ⟨some "A", 100, true⟩, 14/10⟩]).2 = 1)
    ∧ ((14 : ℚ)/10 / dwellThreshold = 2)
    ∧ ((1 : ℕ) ≠ 2) := by
  refine ⟨by with_unfolding_all decide, by norm_num [dwellThreshold], by decide⟩

/-- C9, counterexample.  `change_mode` cycles through the four-element
list `["LETTERS", "NUMBERS", "SYMBOLS", "ACTIONS"]`: from NUMBERS the
next mode is SYMBOLS, not ACTIONS as claimed. -/
theorem C9_mode_cycle_counterexample :
    ((changeMode kbInit).currentMode = "NUMBERS")
    ∧ ((changeMode (changeMode kbInit)).currentMode = "SYMBOLS")
    ∧ ("SYMBOLS" ≠ "ACTIONS") := by
  with_unfolding_all decide

/-- C10, counterexample.  A zero-hands frame does *not* reset the
virtual keyboard's selection channel: the hovered-key scratch and the
pinch arm flag survive untouched. -/
theorem C10_zero_hands_counterexample :
    ((vkStep { vkInit with pinchActive := true, hoverKey := some "A" } ⟨none, 5⟩).1.pinchActive
      = true)
    ∧ ((vkStep { vkInit with pinchActive := true, hoverKey := some "A" } ⟨none, 5⟩).1.hoverKey
      = some "A") := by
  with_unfolding_all decide

/-- C10, amended: a zero-hands frame immediately resets the zone-typing
channel of `webcam_keyboard.py` (confirmation counter zeroed, confirmed
flag cleared, current zone cleared, everything else untouched, no
emission), but the virtual keyboard's selection channel
(`webcam_virtual_keyboard.py`) is left entirely unchanged by a
zero-hands frame — its hovered-key scratch and pinch arm flag are *not*
cleared. -/
theorem C10_zero_hands_amended :
    (∀ (s : KbState) (t : ℚ),
      kbStep s ⟨[], t⟩
        = .ok ({ s with
            currentZone := none,
            gestureConfirmed := false,
            confirmationFrames := 0 }, []))
    ∧ (∀ (s : VkState) (t : ℚ), vkStep s ⟨none, t⟩ = (s, [])) := by
  constructor
  · intro s t
    simp [kbStep, kbHandsBlock]
  · intro s t
    rfl

/-- C7, amended: the Shift latch is a one-shot latch set by selecting
Shift and consumed immediately after the next processed key selection
*whose label is neither Shift nor Caps* (a Shift selection re-latches
and a Caps selection leaves the latch untouched); alphabetic output case
equals `Caps XOR latch`; non-alphabetic output applies the fixed
shift-substitution table exactly when the latch is set; and
SelectKey(Shift) then SelectKey('A') with Caps off emits `"A"`, after
which SelectKey('B') with no intervening Shift emits `"b"`. -/
theorem C7_shift_latch_amended :
    (∀ (s : VkState) (label : String) (t : ℚ),
      ¬ t - s.lastSelectTime < selectDebounce →
      label ≠ "Shift" → label ≠ "Caps" →
      (typeKey s label t).1.shiftLatched = false)
    ∧ (∀ (s : VkState) (label : String) (c : Char) (t : ℚ),
      ¬ t - s.lastSelectTime < selectDebounce →
      label.toList = [c] → c.isAlpha = true →
      label ∉ ["Backspace", "Tab", "Enter", "Space", "Caps", "Shift",
        "Ctrl", "Alt", "Win", "Menu"] →
      (typeKey s label t).2 = [VkEvent.selectKey label,
        VkEvent.typed (String.singleton
          (if xor s.capsLock s.shiftLatched then c.toUpper else c.toLower))])
    ∧ (∀ (s : VkState) (label : String) (c : Char) (t : ℚ),
      ¬ t - s.lastSelectTime < selectDebounce →
      label.toList = [c] → c.isAlpha = false →
      label ∉ ["Backspace", "Tab", "Enter", "Space", "Caps", "Shift",
        "Ctrl", "Alt", "Win", "Menu"] →
      (typeKey s label t).2 = [VkEvent.selectKey label,
        VkEvent.typed (String.singleton
          (if s.shiftLatched then shiftedChar c else c))])
    ∧ ((typeKey (typeKey vkInit "Shift" 1).1 "A" 2).2
        = [VkEvent.selectKey "A", VkEvent.typed "A"])
    ∧ ((typeKey (typeKey (typeKey vkInit "Shift" 1).1 "A" 2).1 "B" 3).2
        = [VkEvent.selectKey "B", VkEvent.typed "b"]) := by
  refine ⟨?_, ?_, ?_, ?_, ?_⟩
  · intro s label t hdeb h1 h2
    exact typeKey_clears_latch s label t hdeb h1 h2
  · intro s label c t hdeb hc halpha hspec
    exact typeKey_alpha_out s label c t hdeb hc halpha hspec
  · intro s label c t hdeb hc halpha hspec
    exact typeKey_nonalpha_out s label c t hdeb hc halpha hspec
  · with_unfolding_all decide
  · with_unfolding_all decide

/-- C7, witness for the hypothesis-bearing parts: the latch-clearing
rule at a latched state with label `"A"`, the alphabetic rule at a
latched state (emitting uppercase), and the non-alphabetic rule at a
latched state (emitting the shift substitute of `"1"`). -/
theorem C7_shift_latch_amended_witness :
    ((typeKey { vkInit with shiftLatched := true } "A" 1).1.shiftLatched = false)
    ∧ ((typeKey { vkInit with shiftLatched := true } "A" 1).2
        = [VkEvent.selectKey "A",
           VkEvent.typed (String.singleton
             (if xor false true then Char.toUpper 'A' else Char.toLower 'A'))])
    ∧ ((typeKey { vkInit with shiftLatched := true } "1" 1).2
        = [VkEvent.selectKey "1",
           VkEvent.typed (String.singleton (if true then shiftedChar '1' else '1'))]) := by
  refine ⟨C7_shift_latch_amended.1 _ "A" 1 (by norm_num [vkInit, selectDebounce]) (by decide)
      (by decide),
    C7_shift_latch_amended.2.1 _ "A" 'A' 1 (by norm_num [vkInit, selectDebounce]) rfl (by decide)
      (by decide),
    C7_shift_latch_amended.2.2.1 _ "1" '1' 1 (by norm_num [vkInit, selectDebounce]) rfl (by decide)
      (by decide)⟩

/-- C9, amended: `change_mode` advances the typing mode by exactly one
step through the *four*-element cycle
LETTERS → NUMBERS → SYMBOLS → ACTIONS → LETTERS (cyclic wrap), and a
sustained two-hands-open gesture past the 2-second mode-switch cooldown
fires exactly one ModeCycle (a both-open frame emits exactly
`[modeCycle]`, restamps the cooldown, and a further both-open frame
within the cooldown emits nothing). -/
theorem C9_mode_cycle_amended :
    ((changeMode kbInit).currentMode = "NUMBERS")
    ∧ ((changeMode (changeMode kbInit)).currentMode = "SYMBOLS")
    ∧ ((changeMode (changeMode (changeMode kbInit))).currentMode = "ACTIONS")
    ∧ ((changeMode (changeMode (changeMode (changeMode kbInit)))).currentMode = "LETTERS")
    ∧ (∀ (s : KbState) (hands : List KbHand) (t : ℚ),
        hands.length = 2 → (∀ h ∈ hands, h.fingerCount = 5) →
        t - s.lastGestureTime > 2 →
        ∃ s1, kbStep s ⟨hands, t⟩ = .ok (s1, [KbEvent.modeCycle])
          ∧ s1.modeIndex = (s.modeIndex + 1) % 4
          ∧ s1.currentMode = modes.getD ((s.modeIndex + 1) % 4) ""
          ∧ s1.lastGestureTime = t
          ∧ ∀ (hands2 : List KbHand) (t2 : ℚ),
              hands2.length = 2 → (∀ h ∈ hands2, h.fingerCount = 5) →
              t2 - t ≤ 2 →
              ∃ s2, kbStep s1 ⟨hands2, t2⟩ = .ok (s2, [])) := by
  refine ⟨by with_unfolding_all decide, by with_unfolding_all decide,
    by with_unfolding_all decide, by with_unfolding_all decide, ?_⟩
  intro s hands t hlen hfive ht
  have hBoth : (decide ((⟨hands, t⟩ : KbFrame).hands.length = 2)
      && (⟨hands, t⟩ : KbFrame).hands.all (fun h => h.fingerCount == 5)) = true := by
    simp [hlen, List.all_eq_true]
    intro h hmem
    exact hfive h hmem
  obtain ⟨s1, hblock, hlg, hmi, hcm⟩ := kbHandsBlock_bothOpen s ⟨hands, t⟩
  have hcond : (true = true ∧ (⟨hands, t⟩ : KbFrame).time - s1.lastGestureTime > 2) :=
    ⟨rfl, by rw [hlg]; exact ht⟩
  refine ⟨{ changeMode s1 with lastGestureTime := t }, ?_, ?_, ?_, rfl, ?_⟩
  · unfold kbStep
    rw [hBoth]
    dsimp only
    rw [hblock]
    dsimp only
    rw [if_pos hcond]
    rfl
  · simp [changeMode, hmi, modes]
  · simp [changeMode, hmi, modes]
  · intro hands2 t2 hlen2 hfive2 ht2
    have hBoth2 : (decide ((⟨hands2, t2⟩ : KbFrame).hands.length = 2)
        && (⟨hands2, t2⟩ : KbFrame).hands.all (fun h => h.fingerCount == 5)) = true := by
      simp [hlen2, List.all_eq_true]
      intro h hmem
      exact hfive2 h hmem
    obtain ⟨s2, hblock2, hlg2, _, _⟩ :=
      kbHandsBlock_bothOpen { changeMode s1 with lastGestureTime := t } ⟨hands2, t2⟩
    have hlgt : s2.lastGestureTime = t := by rw [hlg2]
    have hcond2 : ¬ (true = true ∧ (⟨hands2, t2⟩ : KbFrame).time - s2.lastGestureTime > 2) := by
      rintro ⟨-, hgt⟩
      rw [hlgt] at hgt
      dsimp only at hgt
      linarith
    refine ⟨s2, ?_⟩
    unfold kbStep
    rw [hBoth2]
    dsimp only
    rw [hblock2]
    dsimp only
    rw [if_neg hcond2]

/-- C9, witness: one both-open frame from the initial state at `t = 10`
fires exactly one ModeCycle and advances LETTERS → NUMBERS. -/
theorem C9_mode_cycle_amended_witness :
    ∃ s1, kbStep kbInit ⟨[⟨5, none⟩, ⟨5, none⟩], 10⟩ = .ok (s1, [KbEvent.modeCycle])
      ∧ s1.modeIndex = (kbInit.modeIndex + 1) % 4
      ∧ s1.currentMode = modes.getD ((kbInit.modeIndex + 1) % 4) ""
      ∧ s1.lastGestureTime = 10
      ∧ ∀ (hands2 : List KbHand) (t2 : ℚ),
          hands2.length = 2 → (∀ h ∈ hands2, h.fingerCount = 5) →
          t2 - 10 ≤ 2 →
          ∃ s2, kbStep s1 ⟨hands2, t2⟩ = .ok (s2, []) := by
  exact C9_mode_cycle_amended.2.2.2.2 kbInit [⟨5, none⟩, ⟨5, none⟩] 10 rfl
    (by decide) (by norm_num [kbInit])

/-- C1, amended: the cross-channel exclusion that the code actually
enforces is at the transitions, not as a state invariant — (a) a
RightClick is only ever emitted when, after the frame's primary block,
neither drag mode nor the primary pinch is active (the firing check of
line 183), and (b) a secondary Arm is only accepted while the primary
channel is not armed (line 193); but a secondary channel armed *before*
the primary may stay armed while the primary arms and escalates to
drag, so `drag_mode ∧ right_pinch_active` is reachable. -/
theorem C1_secondary_channel_exclusion :
    (∀ (s : MouseState) (g : Gesture) (t : ℚ),
      MEvent.rightClick ∈ (handleMouseControl s g t).2 →
      (handleMouseControl s g t).1.dragMode = false
        ∧ (handleMouseControl s g t).1.pinchActive = false)
    ∧ (∀ (s : MouseState) (g : Gesture) (t : ℚ),
      s.rightPinchActive = false →
      (handleMouseControl s g t).1.rightPinchActive = true →
      (handleMouseControl s g t).1.pinchActive = false) := by
  constructor
  · intro s g t hmem
    unfold handleMouseControl at hmem ⊢
    dsimp only at hmem ⊢
    have hmem2 : MEvent.rightClick ∈ (rightBlock (leftBlock s g t).1 g t).2 := by
      rcases List.mem_append.mp hmem with h | h
      · rcases List.mem_append.mp h with h2 | h2
        · by_cases hmv : s.mouseControlEnabled = true ∧ g.indexExtended = true
          · rw [if_pos hmv] at h2
            simp at h2
          · rw [if_neg hmv] at h2
            simp at h2
        · exact absurd h2 (leftBlock_no_rightClick s g t)
      · exact h
    have hfire := rightBlock_fire (leftBlock s g t).1 g t hmem2
    have hpre := rightBlock_preserves_left (leftBlock s g t).1 g t
    constructor
    · rw [hpre.2.2.1]
      exact hfire.1
    · rw [hpre.1]
      exact hfire.2
  · intro s g t h0 h1
    unfold handleMouseControl at h1 ⊢
    dsimp only at h1 ⊢
    exact rightBlock_new_arm (leftBlock s g t).1 g t
      ((leftBlock_preserves_right s g t).1.trans h0) h1

/-- C1, witness: a frame that fires RightClick (armed secondary, wide
release, idle primary), and a frame that newly arms the secondary
channel from the initial state. -/
theorem C1_secondary_channel_exclusion_witness :
    ((handleMouseControl { mouseInit with rightPinchActive := true, rightPinchStartedAt := 1 }
        ⟨100, 100, false⟩ 2).1.dragMode = false
      ∧ (handleMouseControl { mouseInit with rightPinchActive := true, rightPinchStartedAt := 1 }
        ⟨100, 100, false⟩ 2).1.pinchActive = false)
    ∧ ((handleMouseControl mouseInit ⟨100, 10, false⟩ 1).1.pinchActive = false) := by
  exact ⟨C1_secondary_channel_exclusion.1 _ ⟨100, 100, false⟩ 2 (by with_unfolding_all decide),
    C1_secondary_channel_exclusion.2 mouseInit ⟨100, 10, false⟩ 1 rfl
      (by with_unfolding_all decide)⟩

/-- C6, amended: sink-call failures of the `FailSafeException` kind are
caught at each call site of `handle_mouse_control` and treated as
no-ops for the frame — the run succeeds and the resulting channel state
equals the all-successful run's state except for the fired-event
timestamps (`last_click_time` / `last_right_click_time`); in
`execute_action` *any* sink failure is caught and leaves the text state
of the frame unchanged.  Failures of other exception kinds inside
`handle_mouse_control`, however, propagate out and terminate the main
loop (see the counterexample). -/
theorem C6_sink_failure_amended :
    (∀ (s : MouseState) (g : Gesture) (t : ℚ),
      ∃ s2 evs, handleMouseControlF failSafePlan s g t = .ok (s2, evs)
        ∧ chanCore s2 = chanCore (handleMouseControl s g t).1)
    ∧ (∀ (a text : String), executeAction SinkOutcome.err a text = text)
    ∧ (∀ (a text : String), executeAction SinkOutcome.failSafe a text = text) := by
  refine ⟨?_, ?_, ?_⟩
  · intro s g t
    obtain ⟨evL, hL⟩ := leftBlockF_failSafe s g t
    obtain ⟨evR, hR⟩ :=
      rightBlockF_failSafe { (leftBlock s g t).1 with lastClickTime := s.lastClickTime } g t
    refine ⟨{ (rightBlock { (leftBlock s g t).1 with lastClickTime := s.lastClickTime } g t).1
        with lastRightClickTime :=
          ({ (leftBlock s g t).1 with
            lastClickTime := s.lastClickTime } : MouseState).lastRightClickTime },
      [] ++ evL ++ evR, ?_, ?_⟩
    · unfold handleMouseControlF
      dsimp only
      rw [show failSafePlan.moveTo = SinkOutcome.failSafe from rfl]
      dsimp only
      rw [ite_self]
      dsimp only
      rw [hL]
      dsimp only
      rw [hR]
    · show chanCore
          (rightBlock { (leftBlock s g t).1 with lastClickTime := s.lastClickTime } g t).1
        = chanCore (handleMouseControl s g t).1
      unfold handleMouseControl
      dsimp only
      exact (rightBlock_chanCore_congr (leftBlock s g t).1 s.lastClickTime g t)
  · intro a text
    simp [executeAction]
  · intro a text
    simp [executeAction]

/-- C3: hysteresis of the primary pinch channel.  For every distance
series that starts above `pinch_off`, dips below `pinch_on`, stays
strictly inside the open band `(pinch_on, pinch_off)` for any number of
frames, and then rises above `pinch_off` (pointing extended throughout,
click control enabled, channel initially idle), the channel performs
exactly one Arm transition and exactly one Release transition — no
intermediate re-arming inside the band. -/
theorem C3_hysteresis_single_arm_release
    (s0 : MouseState) (pre dip band post : List (Gesture × ℚ))
    (h0 : s0.pinchActive = false) (hce : s0.clickEnabled = true)
    (hpre : ∀ f ∈ pre, pinchOff < (f : Gesture × ℚ).1.thumbIndexDistance
      ∧ f.1.indexExtended = true)
    (hdipne : dip ≠ [])
    (hdip : ∀ f ∈ dip, (f : Gesture × ℚ).1.thumbIndexDistance < pinchOn
      ∧ f.1.indexExtended = true)
    (hband : ∀ f ∈ band, pinchOn < (f : Gesture × ℚ).1.thumbIndexDistance
      ∧ f.1.thumbIndexDistance < pinchOff ∧ f.1.indexExtended = true)
    (hpostne : post ≠ [])
    (hpost : ∀ f ∈ post, pinchOff < (f : Gesture × ℚ).1.thumbIndexDistance
      ∧ f.1.indexExtended = true) :
    pinchRises s0 (pre ++ dip ++ band ++ post) = 1
    ∧ pinchFalls s0 (pre ++ dip ++ band ++ post) = 1 := by
  obtain ⟨d, dipRest, rfl⟩ := List.exists_cons_of_ne_nil hdipne
  obtain ⟨p, postRest, rfl⟩ := List.exists_cons_of_ne_nil hpostne
  have hon_off : pinchOn < pinchOff := by norm_num [pinchOn, pinchOff]
  -- segment 1: above the band, idle stays idle
  have hA := run_idle pre s0 h0
    (fun f hf => not_lt.mpr (le_of_lt (hon_off.trans (hpre f hf).1)))
  have hs1A : (mouseRun s0 pre).1.pinchActive = false := hA.1
  have hs1C : (mouseRun s0 pre).1.clickEnabled = true := hA.2.1.trans hce
  -- segment 2, first frame: the Arm transition
  have harm := leftBlock_arm (mouseRun s0 pre).1 d.1 d.2 hs1A hs1C
    (hdip d (by simp)).2 (hdip d (by simp)).1
  have hpfd := handle_pinch_fields (mouseRun s0 pre).1 d.1 d.2
  have hs2A : (handleMouseControl (mouseRun s0 pre).1 d.1 d.2).1.pinchActive = true := by
    rw [hpfd.1, harm]
  have hs2C : (handleMouseControl (mouseRun s0 pre).1 d.1 d.2).1.clickEnabled = true :=
    (handle_preserves_enabled (mouseRun s0 pre).1 d.1 d.2).trans hs1C
  -- segments 2 (rest) and 3: still pinching, armed stays armed
  have hholdcond : ∀ f ∈ dipRest ++ band,
      ¬ ((f : Gesture × ℚ).1.thumbIndexDistance > pinchOff ∨ f.1.indexExtended = false) := by
    intro f hf
    rcases List.mem_append.mp hf with hf | hf
    · have hd := hdip f (by simp [hf])
      rintro (hgt | hexf)
      · exact absurd hgt (not_lt.mpr (le_of_lt (hd.1.trans hon_off)))
      · exact absurd (hd.2.symm.trans hexf) (by decide)
    · have hb := hband f hf
      rintro (hgt | hexf)
      · exact absurd hgt (not_lt.mpr (le_of_lt hb.2.1))
      · exact absurd (hb.2.2.symm.trans hexf) (by decide)
  have hC := run_hold (dipRest ++ band) (handleMouseControl (mouseRun s0 pre).1 d.1 d.2).1
    hs2A hs2C hholdcond
  have hs3A : (mouseRun (handleMouseControl (mouseRun s0 pre).1 d.1 d.2).1
      (dipRest ++ band)).1.pinchActive = true := hC.1
  have hs3C : (mouseRun (handleMouseControl (mouseRun s0 pre).1 d.1 d.2).1
      (dipRest ++ band)).1.clickEnabled = true := hC.2.2.1
  -- segment 4, first frame: the Release transition
  have hrelp : p.1.thumbIndexDistance > pinchOff ∨ p.1.indexExtended = false :=
    Or.inl (hpost p (by simp)).1
  have hs4A : (handleMouseControl
      (mouseRun (handleMouseControl (mouseRun s0 pre).1 d.1 d.2).1 (dipRest ++ band)).1
      p.1 p.2).1.pinchActive = false := by
    rw [(handle_pinch_fields _ p.1 p.2).1]
    exact leftBlock_release_inactive _ p.1 p.2 hs3A hs3C hrelp
  -- segment 4, rest: back above the band, idle stays idle
  have hE := run_idle postRest _ hs4A
    (fun f hf => not_lt.mpr (le_of_lt (hon_off.trans (hpost f (by simp [hf])).1)))
  -- assemble the transition counts
  have hshape : pre ++ (d :: dipRest) ++ band ++ (p :: postRest)
      = pre ++ (d :: ((dipRest ++ band) ++ (p :: postRest))) := by
    simp
  constructor
  · rw [hshape, pinchRises_append, hA.2.2.1]
    simp only [pinchRises]
    rw [if_pos ⟨hs1A, hs2A⟩, pinchRises_append, hC.2.2.2.1]
    simp only [pinchRises]
    rw [if_neg (by simp [hs3A]), hE.2.2.1]
  · rw [hshape, pinchFalls_append, hA.2.2.2]
    simp only [pinchFalls]
    rw [if_neg (by simp [hs1A]), pinchFalls_append, hC.2.2.2.2.1]
    simp only [pinchFalls]
    rw [if_pos ⟨hs3A, hs4A⟩, hE.2.2.2]

/-- C3, witness: the distance series 50, 30, 40, 38, 50, 60 px (pointing
extended, click control enabled) arms exactly once and releases exactly
once. -/
theorem C3_hysteresis_single_arm_release_witness :
    pinchRises mouseInit
      [(⟨50, 100, true⟩, 1), (⟨30, 100, true⟩, 2), (⟨40, 100, true⟩, 3),
       (⟨38, 100, true⟩, 4), (⟨50, 100, true⟩, 5), (⟨60, 100, true⟩, 6)] = 1
    ∧ pinchFalls mouseInit
      [(⟨50, 100, true⟩, 1), (⟨30, 100, true⟩, 2), (⟨40, 100, true⟩, 3),
       (⟨38, 100, true⟩, 4), (⟨50, 100, true⟩, 5), (⟨60, 100, true⟩, 6)] = 1 := by
  exact C3_hysteresis_single_arm_release mouseInit
    [(⟨50, 100, true⟩, 1)] [(⟨30, 100, true⟩, 2)]
    [(⟨40, 100, true⟩, 3), (⟨38, 100, true⟩, 4)]
    [(⟨50, 100, true⟩, 5), (⟨60, 100, true⟩, 6)]
    rfl rfl (by with_unfolding_all decide) (List.cons_ne_nil _ _)
    (by with_unfolding_all decide) (by with_unfolding_all decide)
    (List.cons_ne_nil _ _) (by with_unfolding_all decide)

/-- C2, amended: (a) for every arm cycle in which some still-pinching
frame is observed at held duration ≥ `drag_hold_threshold` before the
release, the channel escalates to drag at the first such frame, the
release emits DragEnd and returns to Idle, and the primary-channel
event sequence of the cycle is exactly DragStart followed by DragEnd
with no Click; (b) in any arm cycle whose release duration is
≥ `drag_hold_threshold`, Click is never emitted (since
`drag_hold_threshold > click_max_duration`) — but without an
intermediate frame witnessing the hold the escalation, and hence
DragStart/DragEnd, need not happen (see the counterexample). -/
theorem C2_drag_cycle_amended :
    (∀ (s0 : MouseState) (g0 : Gesture) (t0 : ℚ) (holds : List (Gesture × ℚ))
      (gr : Gesture) (tr : ℚ),
      s0.pinchActive = false → s0.dragMode = false → s0.clickEnabled = true →
      g0.indexExtended = true → g0.thumbIndexDistance < pinchOn →
      (∀ f ∈ holds, ¬ ((f : Gesture × ℚ).1.thumbIndexDistance > pinchOff
        ∨ f.1.indexExtended = false)) →
      (gr.thumbIndexDistance > pinchOff ∨ gr.indexExtended = false) →
      (∃ f ∈ holds, dragHoldThreshold ≤ (f : Gesture × ℚ).2 - t0) →
      ((mouseRun s0 ((g0, t0) :: (holds ++ [(gr, tr)]))).2.filter isPrimary
          = [MEvent.dragStart, MEvent.dragEnd]
        ∧ (mouseRun s0 ((g0, t0) :: (holds ++ [(gr, tr)]))).1.pinchActive = false
        ∧ (mouseRun s0 ((g0, t0) :: (holds ++ [(gr, tr)]))).1.dragMode = false))
    ∧ (∀ (s0 : MouseState) (g0 : Gesture) (t0 : ℚ) (holds : List (Gesture × ℚ))
      (gr : Gesture) (tr : ℚ),
      s0.pinchActive = false → s0.dragMode = false → s0.clickEnabled = true →
      g0.indexExtended = true → g0.thumbIndexDistance < pinchOn →
      (∀ f ∈ holds, ¬ ((f : Gesture × ℚ).1.thumbIndexDistance > pinchOff
        ∨ f.1.indexExtended = false)) →
      (gr.thumbIndexDistance > pinchOff ∨ gr.indexExtended = false) →
      dragHoldThreshold ≤ tr - t0 →
      MEvent.click ∉ (mouseRun s0 ((g0, t0) :: (holds ++ [(gr, tr)]))).2) := by
  constructor
  · intro s0 g0 t0 holds gr tr h0 hD hce he hd hholds hrel hcross
    have harm := leftBlock_arm s0 g0 t0 h0 hce he hd
    have hpf0 := handle_pinch_fields s0 g0 t0
    have hs1A : (handleMouseControl s0 g0 t0).1.pinchActive = true := by
      rw [hpf0.1, harm]
    have hs1S : (handleMouseControl s0 g0 t0).1.pinchStartedAt = t0 := by
      rw [hpf0.2.1, harm]
    have hs1D : (handleMouseControl s0 g0 t0).1.dragMode = false := by
      rw [hpf0.2.2.1, harm]
      exact hD
    have hs1C : (handleMouseControl s0 g0 t0).1.clickEnabled = true :=
      (handle_preserves_enabled s0 g0 t0).trans hce
    have hs1E : List.filter isPrimary (handleMouseControl s0 g0 t0).2 = [] := by
      rw [hpf0.2.2.2.2.2, harm]
      rfl
    have hH := run_hold holds (handleMouseControl s0 g0 t0).1 hs1A hs1C hholds
    have hcross1 : ∃ f ∈ holds,
        dragHoldThreshold ≤ (f : Gesture × ℚ).2
          - (handleMouseControl s0 g0 t0).1.pinchStartedAt := by
      rw [hs1S]
      exact hcross
    have hs2A := hH.1
    have hs2S : (mouseRun (handleMouseControl s0 g0 t0).1 holds).1.pinchStartedAt = t0 :=
      hH.2.1.trans hs1S
    have hs2C := hH.2.2.1
    have hs2D : (mouseRun (handleMouseControl s0 g0 t0).1 holds).1.dragMode = true := by
      rw [hH.2.2.2.2.2.1, hs1D]
      simp only [Bool.false_or]
      rw [decide_eq_true_eq]
      exact hcross1
    have hHE : List.filter isPrimary (mouseRun (handleMouseControl s0 g0 t0).1 holds).2
        = [MEvent.dragStart] := by
      rw [hH.2.2.2.2.2.2, if_pos ⟨hs1D, hcross1⟩]
    have hrelL := leftBlock_release (mouseRun (handleMouseControl s0 g0 t0).1 holds).1
      gr tr hs2A hs2C hrel
    have hpf2 := handle_pinch_fields (mouseRun (handleMouseControl s0 g0 t0).1 holds).1 gr tr
    have hs3A : (handleMouseControl (mouseRun (handleMouseControl s0 g0 t0).1 holds).1
        gr tr).1.pinchActive = false := by
      rw [hpf2.1]
      exact leftBlock_release_inactive _ gr tr hs2A hs2C hrel
    have hs3D : (handleMouseControl (mouseRun (handleMouseControl s0 g0 t0).1 holds).1
        gr tr).1.dragMode = false := by
      rw [hpf2.2.2.1, hrelL, if_pos hs2D]
    have hs3E : List.filter isPrimary
        (handleMouseControl (mouseRun (handleMouseControl s0 g0 t0).1 holds).1 gr tr).2
        = [MEvent.dragEnd] := by
      rw [hpf2.2.2.2.2.2, hrelL, if_pos hs2D]
      rfl
    have hsplit : (mouseRun s0 ((g0, t0) :: (holds ++ [(gr, tr)]))).2
        = (handleMouseControl s0 g0 t0).2
          ++ ((mouseRun (handleMouseControl s0 g0 t0).1 holds).2
            ++ (mouseRun (mouseRun (handleMouseControl s0 g0 t0).1 holds).1 [(gr, tr)]).2) := by
      simp only [mouseRun]
      rw [mouseRun_events_append]
      simp only [mouseRun]
    have hone : (mouseRun (mouseRun (handleMouseControl s0 g0 t0).1 holds).1 [(gr, tr)]).2
        = (handleMouseControl (mouseRun (handleMouseControl s0 g0 t0).1 holds).1 gr tr).2
          ++ [] := by
      simp only [mouseRun]
    have hstate : (mouseRun s0 ((g0, t0) :: (holds ++ [(gr, tr)]))).1
        = (handleMouseControl (mouseRun (handleMouseControl s0 g0 t0).1 holds).1 gr tr).1 := by
      simp only [mouseRun]
      rw [mouseRun_state_append]
      simp only [mouseRun]
    refine ⟨?_, ?_, ?_⟩
    · rw [hsplit, List.filter_append, List.filter_append, hs1E, hHE, hone,
        List.filter_append, hs3E]
      simp
    · rw [hstate]
      exact hs3A
    · rw [hstate]
      exact hs3D
  · intro s0 g0 t0 holds gr tr h0 hD hce he hd hholds hrel hdur
    intro hmem
    have harm := leftBlock_arm s0 g0 t0 h0 hce he hd
    have hpf0 := handle_pinch_fields s0 g0 t0
    have hs1A : (handleMouseControl s0 g0 t0).1.pinchActive = true := by
      rw [hpf0.1, harm]
    have hs1S : (handleMouseControl s0 g0 t0).1.pinchStartedAt = t0 := by
      rw [hpf0.2.1, harm]
    have hs1C : (handleMouseControl s0 g0 t0).1.clickEnabled = true :=
      (handle_preserves_enabled s0 g0 t0).trans hce
    have hs1E : List.filter isPrimary (handleMouseControl s0 g0 t0).2 = [] := by
      rw [hpf0.2.2.2.2.2, harm]
      rfl
    have hH := run_hold holds (handleMouseControl s0 g0 t0).1 hs1A hs1C hholds
    have hs2A := hH.1
    have hs2S : (mouseRun (handleMouseControl s0 g0 t0).1 holds).1.pinchStartedAt = t0 :=
      hH.2.1.trans hs1S
    have hs2C := hH.2.2.1
    have hholdE : MEvent.click ∉
        List.filter isPrimary (mouseRun (handleMouseControl s0 g0 t0).1 holds).2 := by
      rw [hH.2.2.2.2.2.2]
      split_ifs <;> simp
    have hrelL := leftBlock_release (mouseRun (handleMouseControl s0 g0 t0).1 holds).1
      gr tr hs2A hs2C hrel
    have hpf2 := handle_pinch_fields (mouseRun (handleMouseControl s0 g0 t0).1 holds).1 gr tr
    have hrelE : MEvent.click ∉ List.filter isPrimary
        (handleMouseControl (mouseRun (handleMouseControl s0 g0 t0).1 holds).1 gr tr).2 := by
      rw [hpf2.2.2.2.2.2, hrelL]
      by_cases hdm :
          (mouseRun (handleMouseControl s0 g0 t0).1 holds).1.dragMode = true
      · rw [if_pos hdm]
        simp
      · rw [if_neg hdm, if_neg ?_]
        · simp
        · rintro ⟨hle, -⟩
          rw [hs2S] at hle
          norm_num [clickMaxDuration] at hle
          norm_num [dragHoldThreshold] at hdur
          linarith
    have hsplit : (mouseRun s0 ((g0, t0) :: (holds ++ [(gr, tr)]))).2
        = (handleMouseControl s0 g0 t0).2
          ++ ((mouseRun (handleMouseControl s0 g0 t0).1 holds).2
            ++ (mouseRun (mouseRun (handleMouseControl s0 g0 t0).1 holds).1 [(gr, tr)]).2) := by
      simp only [mouseRun]
      rw [mouseRun_events_append]
      simp only [mouseRun]
    have hone : (mouseRun (mouseRun (handleMouseControl s0 g0 t0).1 holds).1 [(gr, tr)]).2
        = (handleMouseControl (mouseRun (handleMouseControl s0 g0 t0).1 holds).1 gr tr).2
          ++ [] := by
      simp only [mouseRun]
    have hmemF : MEvent.click ∈
        List.filter isPrimary (mouseRun s0 ((g0, t0) :: (holds ++ [(gr, tr)]))).2 :=
      List.mem_filter.mpr ⟨hmem, rfl⟩
    rw [hsplit, List.filter_append, List.filter_append, hs1E, hone,
      List.filter_append] at hmemF
    simp only [List.nil_append, List.filter_nil, List.append_nil, List.mem_append] at hmemF
    rcases hmemF with hmemF | hmemF
    · exact hholdE hmemF
    · exact hrelE hmemF

/-- C2, witness: arm at `t0 = 10`, one still-pinching frame at `10.5`
(crossing the 0.35 s hold threshold), release at `11`: the cycle emits
exactly DragStart then DragEnd, ends Idle, and emits no Click. -/
theorem C2_drag_cycle_amended_witness :
    ((mouseRun mouseInit ((⟨10, 100, true⟩, 10) :: ([(⟨10, 100, true⟩, 21/2)]
        ++ [(⟨100, 100, true⟩, 11)]))).2.filter isPrimary
      = [MEvent.dragStart, MEvent.dragEnd])
    ∧ (mouseRun mouseInit ((⟨10, 100, true⟩, 10) :: ([(⟨10, 100, true⟩, 21/2)]
        ++ [(⟨100, 100, true⟩, 11)]))).1.pinchActive = false
    ∧ (mouseRun mouseInit ((⟨10, 100, true⟩, 10) :: ([(⟨10, 100, true⟩, 21/2)]
        ++ [(⟨100, 100, true⟩, 11)]))).1.dragMode = false
    ∧ MEvent.click ∉ (mouseRun mouseInit ((⟨10, 100, true⟩, 10) :: ([(⟨10, 100, true⟩, 21/2)]
        ++ [(⟨100, 100, true⟩, 11)]))).2 := by
  obtain ⟨h1, h2, h3⟩ := C2_drag_cycle_amended.1 mouseInit ⟨10, 100, true⟩ 10
    [(⟨10, 100, true⟩, 21/2)] ⟨100, 100, true⟩ 11
    rfl rfl rfl rfl (by with_unfolding_all decide) (by with_unfolding_all decide)
    (by with_unfolding_all decide)
    ⟨(⟨10, 100, true⟩, 21/2), by simp, by with_unfolding_all decide⟩
  exact ⟨h1, h2, h3, C2_drag_cycle_amended.2 mouseInit ⟨10, 100, true⟩ 10
    [(⟨10, 100, true⟩, 21/2)] ⟨100, 100, true⟩ 11
    rfl rfl rfl rfl (by with_unfolding_all decide) (by with_unfolding_all decide)
    (by with_unfolding_all decide) (by with_unfolding_all decide)⟩

/-- **C8 (amended).**  The dwell cadence holds at the loop's sampling
resolution: with frames every `dt` seconds and
`dwell_threshold = m · dt`, a continuous hover over frames `0..n` on a
single key fires exactly `⌊n·dt / dwell_threshold⌋ = n / m` accepted
SelectKey selections, exactly at the frames whose index is a positive
multiple of `m` — the first when the hover has lasted exactly
`dwell_threshold` — and `dwell_threshold ≥ select_debounce`, so firings
`m` frames (= one dwell period) apart are never suppressed by the
debounce gate.  (For sampling not aligned with the threshold the
per-frame check can fire fewer than `⌊D / dwell_threshold⌋` times; see
the counterexample.) -/
theorem C8_dwell_cadence_amended (K : String) (pd : ℚ) (ie : Bool) (dt : ℚ) (m n : ℕ)
    (hm : 1 ≤ m) (hdt : 0 < dt) (hmdt : (m : ℚ) * dt = dwellThreshold) :
    countSelects (vkRun vkInit (dwellFrames K pd ie dt (n+1))).2
      = Nat.floor ((n : ℚ) * dt / dwellThreshold)
    ∧ Nat.floor ((n : ℚ) * dt / dwellThreshold) = n / m
    ∧ (vkRun vkInit (dwellFrames K pd ie dt (n+1))).2.map
        (fun evs => (evs.filter isSelect).length)
      = (List.range (n+1)).map (fun i => if m ∣ i ∧ i ≠ 0 then 1 else 0)
    ∧ dwellThreshold ≥ selectDebounce := by
  have h := dwellRun_invariant vkInit K pd ie dt m rfl rfl rfl hm hdt hmdt n
  have hm0 : (m : ℚ) ≠ 0 := Nat.cast_ne_zero.mpr (by omega)
  have hdt0 : dt ≠ 0 := ne_of_gt hdt
  have hq : (n : ℚ) * dt / dwellThreshold = (n : ℚ) / (m : ℚ) := by
    rw [← hmdt]
    field_simp
    ring
  have hfloor : Nat.floor ((n : ℚ) * dt / dwellThreshold) = n / m := by
    rw [hq, Nat.floor_div_nat, Nat.floor_natCast]
  refine ⟨?_, hfloor, h.2.2.2.2.2, by norm_num [dwellThreshold, selectDebounce]⟩
  rw [hfloor]
  exact h.2.2.2.2.1

/-- C8 (amended), witness: key `"E"` hovered over ten frames at
`0, 0.35, …, 3.15 s`, two frames per dwell period (`2 · 0.35 = 0.7`):
the run fires `⌊9 · 0.35 / 0.7⌋ = 4` selections. -/
theorem C8_dwell_cadence_amended_witness :
    ((1:ℕ) ≤ 2 ∧ (0:ℚ) < 7/20 ∧ ((2:ℕ) : ℚ) * (7/20) = dwellThreshold)
    ∧ countSelects (vkRun vkInit (dwellFrames "E" 100 false (7/20) (9+1))).2
        = Nat.floor (((9:ℕ) : ℚ) * (7/20) / dwellThreshold) :=
  ⟨⟨by norm_num, by norm_num, by norm_num [dwellThreshold]⟩,
   (C8_dwell_cadence_amended "E" 100 false (7/20) 2 9 (by norm_num)
     (by norm_num) (by norm_num [dwellThreshold])).1⟩

/-- **C4 (amended).**  Because the 3-frame stability window must first
flush the pre-change value, a (count, zone) pair held stable for exactly
`required_confirmation` frames emits nothing; the single emission comes
at the `required_confirmation + 2`-nd consecutive stable frame.  In
full: starting from the initial state, after one differing frame, a
pair `(c, z)` held for `required_confirmation + 2` frames (typing
enabled, one hand so no mode gesture, debounce elapsed at the firing
frame, the pair mapped to action `a`) yields exactly one emission, at
the last of those frames, and any continuation of the stable run emits
nothing more. -/
theorem C4_confirmation_amended (c c' : ℕ) (z : String) (z' : Option String) (a : String)
    (t0 t1 t2 t3 t4 t5 t6 t7 t8 t9 t10 : ℚ) (rest : List ℚ)
    (hne : ¬ (c' = c ∧ z' = some z))
    (hact : gestureAction "LETTERS" c (some z) = .ok (some a))
    (hdeb : gestureDebounce ≤ t10) :
    kbRun kbInit
      (⟨[⟨c', z'⟩], t0⟩ :: ⟨[⟨c, some z⟩], t1⟩ :: ⟨[⟨c, some z⟩], t2⟩
        :: ⟨[⟨c, some z⟩], t3⟩ :: ⟨[⟨c, some z⟩], t4⟩ :: ⟨[⟨c, some z⟩], t5⟩
        :: ⟨[⟨c, some z⟩], t6⟩ :: ⟨[⟨c, some z⟩], t7⟩ :: ⟨[⟨c, some z⟩], t8⟩
        :: ⟨[⟨c, some z⟩], t9⟩ :: ⟨[⟨c, some z⟩], t10⟩
        :: rest.map (fun t => ⟨[⟨c, some z⟩], t⟩))
      = .ok ((⟨true, executeAction .ok a "", t10, [c, c, c, c, c], c, true, 8, some z,
            [some z, some z, some z, some z, some z], "LETTERS", 0⟩ : KbState),
          List.replicate 10 [] ++ [KbEvent.action a] :: List.replicate rest.length []) := by
  have hdc : ([c, c, c] : List ℕ).dedup.length = 1 := by
    rw [List.dedup_cons_of_mem (by simp), List.dedup_cons_of_mem (by simp)]
    simp
  have hdz : ([some z, some z, some z] : List (Option String)).dedup.length = 1 := by
    rw [List.dedup_cons_of_mem (by simp), List.dedup_cons_of_mem (by simp)]
    simp
  have hw2 : ¬ (([c', c, c] : List ℕ).dedup.length = 1
      ∧ ([z', some z, some z] : List (Option String)).dedup.length = 1) := by
    rintro ⟨hcnt, hzn⟩
    by_cases hc : c' = c
    · have hz : z' ≠ some z := fun hz => hne ⟨hc, hz⟩
      rw [List.dedup_cons_of_not_mem (by simp [hz]),
        List.dedup_cons_of_mem (by simp)] at hzn
      simp at hzn
    · rw [List.dedup_cons_of_not_mem (by simp [hc]),
        List.dedup_cons_of_mem (by simp)] at hcnt
      simp at hcnt
  have h0 : kbStep kbInit ⟨[⟨c', z'⟩], t0⟩
      = .ok ((⟨true, "", 0, [c'], 0, false, 0, z', [z'], "LETTERS", 0⟩ : KbState), []) := by
    rw [kbStep_oneHand]
    exact kbHandsBlock_short kbInit ⟨c', z'⟩ t0 (show ¬ (1:ℕ) ≥ 3 by decide)
  have h1 : kbStep (⟨true, "", 0, [c'], 0, false, 0, z', [z'], "LETTERS", 0⟩ : KbState)
      ⟨[⟨c, some z⟩], t1⟩
      = .ok ((⟨true, "", 0, [c', c], 0, false, 0, some z, [z', some z],
          "LETTERS", 0⟩ : KbState), []) := by
    rw [kbStep_oneHand]
    exact kbHandsBlock_short _ ⟨c, some z⟩ t1 (show ¬ (2:ℕ) ≥ 3 by decide)
  have h2 : kbStep (⟨true, "", 0, [c', c], 0, false, 0, some z, [z', some z],
        "LETTERS", 0⟩ : KbState) ⟨[⟨c, some z⟩], t2⟩
      = .ok ((⟨true, "", 0, [c', c, c], c, false, 0, some z, [z', some z, some z],
          "LETTERS", 0⟩ : KbState), []) := by
    rw [kbStep_oneHand]
    exact kbHandsBlock_reset _ ⟨c, some z⟩ t2 (show (3:ℕ) ≥ 3 by decide) hw2
  have h3 : kbStep (⟨true, "", 0, [c', c, c], c, false, 0, some z, [z', some z, some z],
        "LETTERS", 0⟩ : KbState) ⟨[⟨c, some z⟩], t3⟩
      = .ok ((⟨true, "", 0, [c', c, c, c], c, false, 1, some z,
          [z', some z, some z, some z], "LETTERS", 0⟩ : KbState), []) := by
    rw [kbStep_oneHand]
    exact kbHandsBlock_count _ ⟨c, some z⟩ t3 (show (4:ℕ) ≥ 3 by decide) ⟨hdc, hdz⟩ rfl
      (show ¬ (0:ℕ) + 1 ≥ requiredConfirmation by decide)
  have h4 : kbStep (⟨true, "", 0, [c', c, c, c], c, false, 1, some z,
        [z', some z, some z, some z], "LETTERS", 0⟩ : KbState) ⟨[⟨c, some z⟩], t4⟩
      = .ok ((⟨true, "", 0, [c', c, c, c, c], c, false, 2, some z,
          [z', some z, some z, some z, some z], "LETTERS", 0⟩ : KbState), []) := by
    rw [kbStep_oneHand]
    exact kbHandsBlock_count _ ⟨c, some z⟩ t4 (show (5:ℕ) ≥ 3 by decide) ⟨hdc, hdz⟩ rfl
      (show ¬ (1:ℕ) + 1 ≥ requiredConfirmation by decide)
  have h5 : kbStep (⟨true, "", 0, [c', c, c, c, c], c, false, 2, some z,
        [z', some z, some z, some z, some z], "LETTERS", 0⟩ : KbState) ⟨[⟨c, some z⟩], t5⟩
      = .ok ((⟨true, "", 0, [c, c, c, c, c], c, false, 3, some z,
          [some z, some z, some z, some z, some z], "LETTERS", 0⟩ : KbState), []) := by
    rw [kbStep_oneHand]
    exact kbHandsBlock_count _ ⟨c, some z⟩ t5 (show (5:ℕ) ≥ 3 by decide) ⟨hdc, hdz⟩ rfl
      (show ¬ (2:ℕ) + 1 ≥ requiredConfirmation by decide)
  have h6 : kbStep (⟨true, "", 0, [c, c, c, c, c], c, false, 3, some z,
        [some z, some z, some z, some z, some z], "LETTERS", 0⟩ : KbState) ⟨[⟨c, some z⟩], t6⟩
      = .ok ((⟨true, "", 0, [c, c, c, c, c], c, false, 4, some z,
          [some z, some z, some z, some z, some z], "LETTERS", 0⟩ : KbState), []) := by
    rw [kbStep_oneHand]
    exact kbHandsBlock_count _ ⟨c, some z⟩ t6 (show (5:ℕ) ≥ 3 by decide) ⟨hdc, hdz⟩ rfl
      (show ¬ (3:ℕ) + 1 ≥ requiredConfirmation by decide)
  have h7 : kbStep (⟨true, "", 0, [c, c, c, c, c], c, false, 4, some z,
        [some z, some z, some z, some z, some z], "LETTERS", 0⟩ : KbState) ⟨[⟨c, some z⟩], t7⟩
      = .ok ((⟨true, "", 0, [c, c, c, c, c], c, false, 5, some z,
          [some z, some z, some z, some z, some z], "LETTERS", 0⟩ : KbState), []) := by
    rw [kbStep_oneHand]
    exact kbHandsBlock_count _ ⟨c, some z⟩ t7 (show (5:ℕ) ≥ 3 by decide) ⟨hdc, hdz⟩ rfl
      (show ¬ (4:ℕ) + 1 ≥ requiredConfirmation by decide)
  have h8 : kbStep (⟨true, "", 0, [c, c, c, c, c], c, false, 5, some z,
        [some z, some z, some z, some z, some z], "LETTERS", 0⟩ : KbState) ⟨[⟨c, some z⟩], t8⟩
      = .ok ((⟨true, "", 0, [c, c, c, c, c], c, false, 6, some z,
          [some z, some z, some z, some z, some z], "LETTERS", 0⟩ : KbState), []) := by
    rw [kbStep_oneHand]
    exact kbHandsBlock_count _ ⟨c, some z⟩ t8 (show (5:ℕ) ≥ 3 by decide) ⟨hdc, hdz⟩ rfl
      (show ¬ (5:ℕ) + 1 ≥ requiredConfirmation by decide)
  have h9 : kbStep (⟨true, "", 0, [c, c, c, c, c], c, false, 6, some z,
        [some z, some z, some z, some z, some z], "LETTERS", 0⟩ : KbState) ⟨[⟨c, some z⟩], t9⟩
      = .ok ((⟨true, "", 0, [c, c, c, c, c], c, false, 7, some z,
          [some z, some z, some z, some z, some z], "LETTERS", 0⟩ : KbState), []) := by
    rw [kbStep_oneHand]
    exact kbHandsBlock_count _ ⟨c, some z⟩ t9 (show (5:ℕ) ≥ 3 by decide) ⟨hdc, hdz⟩ rfl
      (show ¬ (6:ℕ) + 1 ≥ requiredConfirmation by decide)
  have h10 : kbStep (⟨true, "", 0, [c, c, c, c, c], c, false, 7, some z,
        [some z, some z, some z, some z, some z], "LETTERS", 0⟩ : KbState) ⟨[⟨c, some z⟩], t10⟩
      = .ok ((⟨true, executeAction .ok a "", t10, [c, c, c, c, c], c, true, 8, some z,
          [some z, some z, some z, some z, some z], "LETTERS", 0⟩ : KbState),
        [KbEvent.action a]) := by
    rw [kbStep_oneHand]
    exact kbHandsBlock_fire _ ⟨c, some z⟩ t10 a (show (5:ℕ) ≥ 3 by decide) ⟨hdc, hdz⟩ rfl
      (show (7:ℕ) + 1 ≥ requiredConfirmation by decide) rfl
      (show ¬ t10 - (0:ℚ) < gestureDebounce by rw [sub_zero]; exact not_lt.mpr hdeb)
      hact
  have hrest := kbRun_steady (⟨true, executeAction .ok a "", t10, [c, c, c, c, c], c, true,
    8, some z, [some z, some z, some z, some z, some z], "LETTERS", 0⟩ : KbState)
    c z rfl rfl rfl rfl rest
  simp only [kbRun, h0, h1, h2, h3, h4, h5, h6, h7, h8, h9, h10, hrest]
  rfl

/-- C4 (amended), witness: one differing frame (two fingers) then the
pair (1 finger, mid_center) held for ten frames at `t = 11..20`, with
two further held frames: exactly one emission — the letter `"e"` — at
the tenth stable frame, none after. -/
theorem C4_confirmation_amended_witness :
    (¬ ((2:ℕ) = 1 ∧ (some "mid_center" : Option String) = some "mid_center"))
    ∧ (gestureAction "LETTERS" 1 (some "mid_center") = .ok (some "e"))
    ∧ (gestureDebounce ≤ (20:ℚ))
    ∧ kbRun kbInit
        (⟨[⟨2, some "mid_center"⟩], 10⟩ :: ⟨[⟨1, some "mid_center"⟩], 11⟩
          :: ⟨[⟨1, some "mid_center"⟩], 12⟩ :: ⟨[⟨1, some "mid_center"⟩], 13⟩
          :: ⟨[⟨1, some "mid_center"⟩], 14⟩ :: ⟨[⟨1, some "mid_center"⟩], 15⟩
          :: ⟨[⟨1, some "mid_center"⟩], 16⟩ :: ⟨[⟨1, some "mid_center"⟩], 17⟩
          :: ⟨[⟨1, some "mid_center"⟩], 18⟩ :: ⟨[⟨1, some "mid_center"⟩], 19⟩
          :: ⟨[⟨1, some "mid_center"⟩], 20⟩
          :: ([21, 22] : List ℚ).map (fun t => ⟨[⟨1, some "mid_center"⟩], t⟩))
      = .ok ((⟨true, executeAction .ok "e" "", 20, [1, 1, 1, 1, 1], 1, true, 8,
            some "mid_center",
            [some "mid_center", some "mid_center", some "mid_center", some "mid_center",
              some "mid_center"], "LETTERS", 0⟩ : KbState),
          List.replicate 10 [] ++ [KbEvent.action "e"]
            :: List.replicate ([21, 22] : List ℚ).length []) :=
  ⟨by decide, by rfl, by norm_num [gestureDebounce],
   C4_confirmation_amended 1 2 "mid_center" (some "mid_center") "e"
     10 11 12 13 14 15 16 17 18 19 20 [21, 22]
     (by decide) (by rfl) (by norm_num [gestureDebounce])⟩

end Webcam
